import Mathlib

/-!
Shallow embedding of the authentication/session core of the Imagify backend
(`src/backend/app/api/routes/auth_routes.py` and its utilities), together with
proofs about the behaviour of the embedded operations.

Modelling conventions:
* Time is a `Nat` (minutes since an arbitrary epoch); `datetime.utcnow()`
  becomes an explicit `now` parameter.
* Random values (one-time codes, refresh-token UUIDs, fresh row ids) and the
  bcrypt primitives are passed in as explicit parameters/oracles, since the
  source draws them from effectful generators.
* The SQLAlchemy session is modelled by threading a pending state and a
  committed state: mutations act on the pending state, `db.commit()` copies
  pending to committed, and raising an HTTP error before a commit discards
  the pending changes (the FastAPI dependency closes the session without
  committing).  Each operation returns its result, the committed database
  and the number of commits it executed.
-/

namespace Imagify

/-- `AuthProviderEnum` from `app/models.py`. -/
inductive AuthProviderEnum where
  | LOCAL
  | GOOGLE
deriving Repr, DecidableEq

/-- The `User` model (`app/models.py` plus the columns added by the alembic
migrations: `reset_verified`, the google sign-in fields and the login
tracking fields, all of which `auth_routes.py` reads and writes). -/
structure UserR where
  id : Nat
  username : String
  email : String
  hashed_password : Option String
  is_verified : Bool
  is_active : Bool
  provider : AuthProviderEnum
  verification_code : Option Nat
  verification_expires_at : Option Nat
  reset_code : Option Nat
  reset_expires_at : Option Nat
  reset_verified : Bool
  google_sub : Option String
  google_picture : Option String
  last_google_id_token : Option String
  profile_image_url : Option String
  last_login_ip : Option String
  last_login_device : Option String
  last_login_at : Option Nat
deriving Repr, DecidableEq

/-- The `RefreshToken` model (`app/models.py`): one row per user
(`user_id` carries a uniqueness constraint), an opaque token value and an
absolute expiry. -/
structure RefreshTokenR where
  user_id : Nat
  token : String
  expires_at : Nat
deriving Repr, DecidableEq

/-- The persistent store: the `users` and `refresh_tokens` tables. -/
structure DB where
  users : List UserR
  tokens : List RefreshTokenR
deriving Repr, DecidableEq

/-- `fastapi.HTTPException`: a status code and a detail message. -/
structure Err where
  status : Nat
  detail : String
deriving Repr, DecidableEq

/-- Outcome of one endpoint call: the HTTP result, the state the database was
left in (the committed state; errors raised before a commit roll pending
changes back), and how many `db.commit()` calls were executed. -/
structure OpOut (α : Type) where
  result : Except Err α
  db : DB
  commits : Nat
deriving Repr

/-- Python truthiness of an `Optional[str]`: `None` and `""` are falsy. -/
def pyStrFalsy : Option String → Bool
  | none => true
  | some s => s = ""

/-- Python `a or b` on `Optional[str]` values. -/
def pyStrOr (a b : Option String) : Option String :=
  if pyStrFalsy a then b else a

/-- Python `str.lower()` on the character list. -/
def lowerChars (l : List Char) : List Char := l.map Char.toLower

/-- Python `str.strip()` on the character list: drop whitespace from both
ends. -/
def trimChars (l : List Char) : List Char :=
  ((l.dropWhile Char.isWhitespace).reverse.dropWhile Char.isWhitespace).reverse

/-- Python `str.strip()`. -/
def pyStrip (s : String) : String := ⟨trimChars s.data⟩

/-- `email.lower().strip()` — the normalisation applied by
`get_user_by_email`, `register_user` and `google_sign_in`. -/
def normalizeEmail (s : String) : String :=
  ⟨trimChars (lowerChars s.data)⟩

/-- Python `email.split("@")[0]`: everything before the first `@` (the
whole string when no `@` occurs). -/
def localPart (s : String) : String := ⟨s.data.takeWhile (fun c => c ≠ '@')⟩

/-- `ACCESS_TOKEN_EXPIRE_MINUTES` (`app/core/config.py`, default 60). -/
def ACCESS_TOKEN_EXPIRE_MINUTES : Nat := 60

/-! ## hash_utils -/

/-- `hash_utils.verify_password`.  The passlib/bcrypt backend is abstracted
as an oracle `rawVerify : plain → hash → Option Bool`, where `none` models
`pwd_context.verify` raising on a corrupted or unexpectedly formatted hash
(the `except Exception` branch in the source).  `not hashed` in Python is
true for `None` and for the empty string. -/
def verify_password (rawVerify : String → String → Option Bool)
    (plain : String) (hashed : Option String) : Bool :=
  if pyStrFalsy hashed then false
  else
    match hashed with
    | none => false
    | some h =>
      match rawVerify plain h with
      | none => false
      | some b => b

/-! ## auth_utils -/

/-- `auth_utils.get_user_by_email`: lowercase/trim the email, look the user
up, 404 when absent. -/
def get_user_by_email (db : DB) (email : String) : Except Err UserR :=
  match db.users.find? (fun u => u.email = normalizeEmail email) with
  | none => .error ⟨404, "User not found"⟩
  | some u => .ok u

/-- The error raised by `auth_utils.ensure_local_account` for non-LOCAL
accounts. -/
def providerErr : Err :=
  ⟨400, "This account uses Google Sign-In and does not have a password."⟩

/-- The error raised by `ensure_user_active` for disabled accounts. -/
def inactiveErr : Err := ⟨403, "Account is disabled"⟩

/-- `auth_utils.validate_reset_code` as a pass/fail check: fails when the
stored code differs, the expiry is absent, or `now` is past the expiry. -/
def validate_reset_code (user : UserR) (code : Nat) (now : Nat) : Except Err Unit :=
  match user.reset_code, user.reset_expires_at with
  | some c, some e =>
    if c = code ∧ now ≤ e then .ok () else .error ⟨400, "Invalid or expired reset code"⟩
  | _, _ => .error ⟨400, "Invalid or expired reset code"⟩

/-! ## jwt_utils -/

/-- The payload of an access token.  The JWT encoding is injective and the
secret is process-wide, so a token signed by this service is modelled by its
claims record; `exp` is the absolute expiry timestamp written by
`_create_token`. -/
structure AccessClaims where
  sub : Option String
  user_id : String
  email : String
  exp : Nat
deriving Repr, DecidableEq

/-- `jwt_utils.create_access_token` (via `_create_token`): attach an expiry
`ACCESS_TOKEN_EXPIRE_MINUTES` past `now`. -/
def create_access_token (sub : Option String) (user_id email : String)
    (now : Nat) : AccessClaims :=
  ⟨sub, user_id, email, now + ACCESS_TOKEN_EXPIRE_MINUTES⟩

/-- `jwt_utils.decode_access_token` (via `_decode_token`): a token of this
service decodes to its claims unless the expiry has passed. -/
def decode_access_token (tok : AccessClaims) (now : Nat) : Except Err AccessClaims :=
  if tok.exp ≤ now then .error ⟨401, "Token has expired"⟩
  else .ok tok

/-- `TokenResponse` (`app/schemas.py`). -/
structure TokenResponse where
  user_id : String
  access_token : AccessClaims
  token_type : String
  refresh_token : String
deriving Repr, DecidableEq

/-! ## Table helpers

SQLAlchemy `query(...).first()` followed by mutation/deletion acts on the
first matching row; these helpers mirror that. -/

/-- Replace the first user whose `id` matches. -/
def updateUsers : List UserR → Nat → UserR → List UserR
  | [], _, _ => []
  | u :: us, uid, u' => if u.id = uid then u' :: us else u :: updateUsers us uid u'

/-- The refresh-token upsert of `login_user` / `google_sign_in`: overwrite the
first row with this `user_id` in place, or add a row when none exists. -/
def upsertToken : List RefreshTokenR → Nat → String → Nat → List RefreshTokenR
  | [], uid, tok, exp => [⟨uid, tok, exp⟩]
  | t :: ts, uid, tok, exp =>
    if t.user_id = uid then { t with token := tok, expires_at := exp } :: ts
    else t :: upsertToken ts uid tok exp

/-- Delete the first refresh-token row owned by `uid` (the
`query(...).first()` + `db.delete(rt)` pattern of `set_new_password`). -/
def deleteTokenByUser : List RefreshTokenR → Nat → List RefreshTokenR
  | [], _ => []
  | t :: ts, uid => if t.user_id = uid then ts else t :: deleteTokenByUser ts uid

/-- Delete the first refresh-token row with this token value (`logout_user`). -/
def deleteTokenByValue : List RefreshTokenR → String → List RefreshTokenR
  | [], _ => []
  | t :: ts, tok => if t.token = tok then ts else t :: deleteTokenByValue ts tok

/-- Number of refresh-token rows owned by `uid`. -/
def countRefreshTokens (db : DB) (uid : Nat) : Nat :=
  (db.tokens.filter (fun t => t.user_id == uid)).length

/-! ## Endpoints (`auth_routes.py`) -/

/-- `POST /auth/login` (`login_user`, auth_routes.py:175-247).  The fresh
refresh-token value and its expiry are parameters (drawn from `uuid4` and
the configured day count in the source). -/
def login_user (rawVerify : String → String → Option Bool)
    (email password ip device refreshValue : String)
    (now refreshExpiry : Nat) (db : DB) : OpOut TokenResponse :=
  match get_user_by_email db email with
  | .error e => ⟨.error e, db, 0⟩
  | .ok user =>
    if user.provider ≠ AuthProviderEnum.LOCAL then ⟨.error providerErr, db, 0⟩
    else if ¬ user.is_active then ⟨.error inactiveErr, db, 0⟩
    else if pyStrFalsy user.hashed_password
        ∨ ¬ verify_password rawVerify password user.hashed_password then
      ⟨.error ⟨400, "Invalid email or password"⟩, db, 0⟩
    else if ¬ user.is_verified then ⟨.error ⟨403, "Email not verified"⟩, db, 0⟩
    else
      let user' := { user with
        last_login_ip := some ip
        last_login_device := some device
        last_login_at := some now }
      let access := create_access_token (some user.email) (toString user.id) user.email now
      let committed : DB :=
        ⟨updateUsers db.users user.id user',
         upsertToken db.tokens user.id refreshValue refreshExpiry⟩
      ⟨.ok ⟨toString user.id, access, "bearer", refreshValue⟩, committed, 1⟩

/-- `POST /auth/refresh` (`refresh_access_token`, auth_routes.py:253-279).
Read-only: no mutation and no commit. -/
def refresh_access_token (refresh_token : String) (now : Nat) (db : DB) :
    OpOut TokenResponse :=
  match db.tokens.find? (fun t => t.token == refresh_token) with
  | none => ⟨.error ⟨401, "Invalid refresh token"⟩, db, 0⟩
  | some rt =>
    if rt.expires_at < now then ⟨.error ⟨401, "Expired refresh token"⟩, db, 0⟩
    else
      match db.users.find? (fun u => u.id == rt.user_id) with
      | none => ⟨.error ⟨404, "User not found"⟩, db, 0⟩
      | some user =>
        if ¬ user.is_active then ⟨.error inactiveErr, db, 0⟩
        else
          let access := create_access_token (some user.email) (toString user.id) user.email now
          ⟨.ok ⟨toString user.id, access, "bearer", refresh_token⟩, db, 0⟩

/-- The row filter of the `/auth/verify` query: code matches and
`verification_expires_at > utcnow()`. -/
def verificationQueryHit (now code : Nat) (u : UserR) : Bool :=
  u.verification_code == some code &&
    match u.verification_expires_at with
    | some e => now < e
    | none => false

/-- `POST /auth/verify` (`verify_email`, auth_routes.py:120-142). -/
def verify_email (code now : Nat) (db : DB) : OpOut String :=
  match db.users.find? (verificationQueryHit now code) with
  | none => ⟨.error ⟨400, "Invalid or expired verification code"⟩, db, 0⟩
  | some user =>
    if user.is_verified then ⟨.ok "Email already verified", db, 0⟩
    else
      let user' := { user with
        is_verified := true
        verification_code := none
        verification_expires_at := none }
      ⟨.ok "Email verified successfully", ⟨updateUsers db.users user.id user', db.tokens⟩, 1⟩

/-- `POST /auth/resend-code` (`resend_verification_code`,
auth_routes.py:149-169).  Note: the lookup compares `payload.email`
verbatim — no lowercasing or trimming. -/
def resend_verification_code (email : String) (newCode now : Nat) (db : DB) :
    OpOut String :=
  match db.users.find? (fun u => u.email == email) with
  | none => ⟨.error ⟨400, "No pending verification found"⟩, db, 0⟩
  | some user =>
    if user.is_verified then ⟨.error ⟨400, "No pending verification found"⟩, db, 0⟩
    else
      let user' := { user with
        verification_code := some newCode
        verification_expires_at := some (now + 15) }
      ⟨.ok "A new verification code has been sent to your email",
       ⟨updateUsers db.users user.id user', db.tokens⟩, 1⟩

/-- `POST /auth/forgot-password` (`forgot_password`, auth_routes.py:285-305). -/
def forgot_password (email : String) (resetCode now : Nat) (db : DB) : OpOut String :=
  match get_user_by_email db email with
  | .error e => ⟨.error e, db, 0⟩
  | .ok user =>
    if user.provider ≠ AuthProviderEnum.LOCAL then ⟨.error providerErr, db, 0⟩
    else if ¬ user.is_active then ⟨.error inactiveErr, db, 0⟩
    else
      let user' := { user with
        reset_code := some resetCode
        reset_expires_at := some (now + 15)
        reset_verified := false }
      ⟨.ok "Password reset code sent to your email",
       ⟨updateUsers db.users user.id user', db.tokens⟩, 1⟩

/-- `POST /auth/verify-forgot-otp` (`verify_forgot_password_otp`,
auth_routes.py:311-329).  On success only `reset_verified` is set; the
stored `reset_code`/`reset_expires_at` stay in place. -/
def verify_forgot_password_otp (code now : Nat) (db : DB) : OpOut String :=
  match db.users.find? (fun u => u.reset_code == some code) with
  | none => ⟨.error ⟨400, "Invalid or expired OTP"⟩, db, 0⟩
  | some user =>
    if user.provider ≠ AuthProviderEnum.LOCAL then ⟨.error providerErr, db, 0⟩
    else if ¬ user.is_active then ⟨.error inactiveErr, db, 0⟩
    else
      match validate_reset_code user code now with
      | .error e => ⟨.error e, db, 0⟩
      | .ok _ =>
        let user' := { user with reset_verified := true }
        ⟨.ok "OTP verified successfully. You can now set a new password.",
         ⟨updateUsers db.users user.id user', db.tokens⟩, 1⟩

/-- `POST /auth/set-new-password` (`set_new_password`, auth_routes.py:335-369).
The payload (`ResetPasswordSchema`) carries only the new password; the row is
chosen as the FIRST user with `reset_verified` true.  `newHash` is the
output of `hash_password` on the payload. -/
def set_new_password (newHash : String) (db : DB) : OpOut String :=
  match db.users.find? (fun u => u.reset_verified) with
  | none => ⟨.error ⟨400, "OTP verification required before setting a new password"⟩, db, 0⟩
  | some user =>
    if user.provider ≠ AuthProviderEnum.LOCAL then ⟨.error providerErr, db, 0⟩
    else if ¬ user.is_active then ⟨.error inactiveErr, db, 0⟩
    else
      let user' := { user with
        hashed_password := some newHash
        reset_verified := false
        reset_code := none
        reset_expires_at := none }
      ⟨.ok "Password updated successfully. You can now log in.",
       ⟨updateUsers db.users user.id user', deleteTokenByUser db.tokens user.id⟩, 1⟩

/-- `POST /auth/reset-password` (`reset_password`, auth_routes.py:375-398),
the authenticated password change.  `get_current_user` resolves the caller
by the id embedded in the access token and checks the active flag before the
route body runs. -/
def reset_password (rawVerify : String → String → Option Bool)
    (userId : Nat) (old_password newHash : String) (db : DB) : OpOut String :=
  match db.users.find? (fun u => u.id == userId) with
  | none => ⟨.error ⟨401, "User not found"⟩, db, 0⟩
  | some user =>
    if ¬ user.is_active then ⟨.error inactiveErr, db, 0⟩
    else if user.provider ≠ AuthProviderEnum.LOCAL then ⟨.error providerErr, db, 0⟩
    else if ¬ verify_password rawVerify old_password user.hashed_password then
      ⟨.error ⟨400, "Current password is incorrect"⟩, db, 0⟩
    else
      let user' := { user with hashed_password := some newHash }
      ⟨.ok "Password reset successfully", ⟨updateUsers db.users user.id user', db.tokens⟩, 1⟩

/-- The `User(...)` constructor call of `register_user` (auth_routes.py:96-105):
unset columns take the model defaults (`is_active` true, nullable columns
null). -/
def registerNewUser (username email hashedPassword : String)
    (code now : Nat) (imageUrl : Option String) (newId : Nat) : UserR :=
  { id := newId, username := pyStrip username, email := normalizeEmail email,
    hashed_password := some hashedPassword,
    is_verified := false, is_active := true,
    provider := AuthProviderEnum.LOCAL,
    verification_code := some code,
    verification_expires_at := some (now + 15),
    reset_code := none, reset_expires_at := none, reset_verified := false,
    google_sub := none, google_picture := none, last_google_id_token := none,
    profile_image_url := imageUrl,
    last_login_ip := none, last_login_device := none, last_login_at := none }

/-- `POST /auth/register` (`register_user`, auth_routes.py:57-114).
`hashedPassword` is `hash_password(form_data.password)`, `code` the random
6-digit code, `imageUrl` the uploaded/default profile image, `newId` the
fresh row id. -/
def register_user (username email hashedPassword : String)
    (code now : Nat) (imageUrl : Option String) (newId : Nat) (db : DB) : OpOut String :=
  let em := normalizeEmail email
  match db.users.find? (fun u => u.email == em) with
  | some existing =>
    if existing.is_verified then
      ⟨.error ⟨400, "Email already registered and verified"⟩, db, 0⟩
    else
      let user' := { existing with
        verification_code := some code
        verification_expires_at := some (now + 15) }
      ⟨.ok "A new verification code has been sent to your email",
       ⟨updateUsers db.users existing.id user', db.tokens⟩, 1⟩
  | none =>
    ⟨.ok "User registered successfully. Please check your email for the 6-digit code.",
     ⟨db.users ++ [registerNewUser username email hashedPassword code now imageUrl newId],
      db.tokens⟩, 1⟩

/-- The fields of a verified Google ID token that `google_sign_in` reads. -/
structure GoogleIdInfo where
  iss : String
  sub : Option String
  email : Option String
  picture : Option String
deriving Repr, DecidableEq

/-- `GoogleAuthSchema`: the raw ID token plus optional client-supplied name
and picture. -/
structure GooglePayload where
  id_token : String
  name : Option String
  picture : Option String
deriving Repr, DecidableEq

/-- `(payload.name or email.split("@")[0]).strip()` (auth_routes.py:434):
Python `or` treats the empty string as falsy. -/
def googleBaseUsername (payload : GooglePayload) (email : String) : String :=
  pyStrip (match payload.name with
    | some n => if n = "" then localPart email else n
    | none => localPart email)

/-- `candidate = base_username or "user"` (auth_routes.py:435). -/
def googleFirstCandidate (payload : GooglePayload) (email : String) : String :=
  if googleBaseUsername payload email = "" then "user" else googleBaseUsername payload email

/-- The `User(...)` constructor call of the new-account path of
`google_sign_in` (auth_routes.py:442-453). -/
def googleNewUser (idinfo : GoogleIdInfo) (payload : GooglePayload)
    (uname email : String) (newId : Nat) : UserR :=
  { id := newId, username := uname, email := email,
    hashed_password := none,
    is_verified := true, is_active := true,
    provider := AuthProviderEnum.GOOGLE,
    verification_code := none, verification_expires_at := none,
    reset_code := none, reset_expires_at := none, reset_verified := false,
    google_sub := idinfo.sub, google_picture := idinfo.picture,
    last_google_id_token := some payload.id_token,
    profile_image_url := pyStrOr idinfo.picture payload.picture,
    last_login_ip := none, last_login_device := none, last_login_at := none }

/-- The username-collision loop of `google_sign_in` (auth_routes.py:436-440):
starting from `candidate`, while the candidate is taken, move to
`base ++ "_" ++ suffix` with the suffix incrementing from 1.  The source
loop is unbounded; here it carries fuel, and the caller passes enough fuel
for the probe to always land on a free name. -/
def probeUsername (taken : String → Bool) (base : String) :
    Nat → String → Nat → Option String
  | 0, _, _ => none
  | fuel + 1, candidate, suffix =>
    if taken candidate then
      probeUsername taken base fuel (base ++ "_" ++ toString suffix) (suffix + 1)
    else some candidate

/-- `POST /auth/google` (`google_sign_in`, auth_routes.py:402-496).
`verified` is the outcome of `id_token.verify_oauth2_token` (`none` models
the `ValueError` branch).  The new-account path commits once for the user
row and once more for the refresh token; the existing-account path commits
once for the metadata update and once for the refresh token. -/
def google_sign_in (verified : Option GoogleIdInfo) (payload : GooglePayload)
    (refreshValue : String) (refreshExpiry now newId : Nat) (db : DB) :
    OpOut TokenResponse :=
  match verified with
  | none => ⟨.error ⟨400, "Invalid Google token"⟩, db, 0⟩
  | some idinfo =>
    if idinfo.iss ≠ "accounts.google.com" ∧ idinfo.iss ≠ "https://accounts.google.com" then
      ⟨.error ⟨400, "Invalid issuer"⟩, db, 0⟩
    else
      let email := normalizeEmail (idinfo.email.getD "")
      if email = "" then ⟨.error ⟨400, "Google token missing email"⟩, db, 0⟩
      else
        match db.users.find? (fun u => u.email == email) with
        | some user =>
          if user.provider ≠ AuthProviderEnum.GOOGLE then
            ⟨.error ⟨400, "This email is registered with password. Please use standard login."⟩,
             db, 0⟩
          else
            let user' := { user with
              google_sub := idinfo.sub
              google_picture := idinfo.picture
              last_google_id_token := some payload.id_token }
            if ¬ user.is_active then ⟨.error inactiveErr, db, 0⟩
            else
              let db1 : DB := ⟨updateUsers db.users user.id user', db.tokens⟩
              let access := create_access_token none (toString user.id) user.email now
              let db2 : DB := ⟨db1.users, upsertToken db1.tokens user.id refreshValue refreshExpiry⟩
              ⟨.ok ⟨toString user.id, access, "bearer", refreshValue⟩, db2, 2⟩
        | none =>
          match probeUsername (fun c => db.users.any (fun u => u.username == c))
              (googleBaseUsername payload email) (db.users.length + 1)
              (googleFirstCandidate payload email) 1 with
          | none => ⟨.error ⟨500, "username probing exhausted"⟩, db, 0⟩
          | some uname =>
            let db1 : DB := ⟨db.users ++ [googleNewUser idinfo payload uname email newId], db.tokens⟩
            let access := create_access_token none (toString newId) email now
            let db2 : DB := ⟨db1.users, upsertToken db1.tokens newId refreshValue refreshExpiry⟩
            ⟨.ok ⟨toString newId, access, "bearer", refreshValue⟩, db2, 2⟩

/-- `POST /auth/sign-out` (`logout_user`, auth_routes.py:501-508). -/
def logout_user (refresh_token : String) (db : DB) : OpOut String :=
  match db.tokens.find? (fun t => t.token == refresh_token) with
  | none => ⟨.ok "Signed out successfully", db, 0⟩
  | some _ =>
    ⟨.ok "Signed out successfully", ⟨db.users, deleteTokenByValue db.tokens refresh_token⟩, 1⟩

/-! ## Login sequences and the one-token-per-user invariant -/

/-- A successful-or-failed credentialed sign-in event: password login or
Google sign-in, with all the effectful inputs recorded. -/
inductive AuthEvent where
  | loginEv (email password ip device refreshValue : String) (now refreshExpiry : Nat)
  | googleEv (verified : Option GoogleIdInfo) (payload : GooglePayload)
      (refreshValue : String) (refreshExpiry now newId : Nat)

/-- Apply one event: the store moves to the operation's committed state
(unchanged when the operation failed). -/
def applyEvent (rawVerify : String → String → Option Bool) (db : DB) :
    AuthEvent → DB
  | .loginEv email password ip device refreshValue now refreshExpiry =>
    (login_user rawVerify email password ip device refreshValue now refreshExpiry db).db
  | .googleEv verified payload refreshValue refreshExpiry now newId =>
    (google_sign_in verified payload refreshValue refreshExpiry now newId db).db

/-- Run a sequence of sign-in events. -/
def runEvents (rawVerify : String → String → Option Bool) (db : DB)
    (es : List AuthEvent) : DB :=
  es.foldl (applyEvent rawVerify) db

/-- No two refresh-token rows share a `user_id` (the `uq_refresh_user`
uniqueness constraint). -/
def tokensOk : List RefreshTokenR → Bool
  | [] => true
  | t :: ts => (!ts.any (fun t2 => t2.user_id == t.user_id)) && tokensOk ts

/-- The store-level invariant: at most one refresh-token row per user. -/
def RefreshInv (db : DB) : Prop :=
  tokensOk db.tokens = true

/-! ## Lemmas about the refresh-token table -/

theorem upsert_any_ne (ts : List RefreshTokenR) (uid v : Nat) (tok : String) (exp : Nat)
    (h : v ≠ uid) :
    (upsertToken ts uid tok exp).any (fun t => t.user_id == v) =
      ts.any (fun t => t.user_id == v) := by
  have hvu : ¬ uid = v := fun hh => h hh.symm
  induction ts with
  | nil =>
    simp [upsertToken, hvu]
  | cons t ts ih =>
    simp only [upsertToken]
    split
    · simp [List.any_cons]
    · simp [List.any_cons, ih]

theorem tokensOk_upsert (ts : List RefreshTokenR) (uid : Nat) (tok : String) (exp : Nat)
    (h : tokensOk ts = true) :
    tokensOk (upsertToken ts uid tok exp) = true := by
  induction ts with
  | nil => simp [tokensOk, upsertToken]
  | cons t ts ih =>
    simp only [tokensOk, Bool.and_eq_true, Bool.not_eq_true'] at h
    simp only [upsertToken]
    split
    · simpa [tokensOk] using h
    next hne =>
      have h2 := ih h.2
      simp [tokensOk, h2, upsert_any_ne ts uid t.user_id tok exp hne, h.1]

theorem count_upsert (ts : List RefreshTokenR) (uid : Nat) (tok : String) (exp : Nat) :
    ((upsertToken ts uid tok exp).filter (fun t => t.user_id == uid)).length =
      max 1 ((ts.filter (fun t => t.user_id == uid)).length) := by
  induction ts with
  | nil => simp [upsertToken]
  | cons t ts ih =>
    simp only [upsertToken]
    split
    next heq =>
      simp [List.filter_cons, heq]
    next hne =>
      have hb : (t.user_id == uid) = false := by simpa using hne
      simp [List.filter_cons, hb, ih]

theorem filter_upsert_ne (ts : List RefreshTokenR) (uid v : Nat) (tok : String) (exp : Nat)
    (h : v ≠ uid) :
    (upsertToken ts uid tok exp).filter (fun t => t.user_id == v) =
      ts.filter (fun t => t.user_id == v) := by
  have hvu : ¬ uid = v := fun hh => h hh.symm
  induction ts with
  | nil =>
    simp [upsertToken, hvu]
  | cons t ts ih =>
    simp only [upsertToken]
    split
    next heq =>
      simp [List.filter_cons, heq, hvu]
    next hne =>
      simp [List.filter_cons, ih]

theorem find?_upsert (ts : List RefreshTokenR) (uid : Nat) (tok : String) (exp : Nat) :
    ∃ r, (upsertToken ts uid tok exp).find? (fun t => t.user_id == uid) = some r ∧
      r.user_id = uid ∧ r.token = tok ∧ r.expires_at = exp := by
  induction ts with
  | nil => exact ⟨⟨uid, tok, exp⟩, by simp [upsertToken], rfl, rfl, rfl⟩
  | cons t ts ih =>
    simp only [upsertToken]
    split
    next heq =>
      exact ⟨{ t with token := tok, expires_at := exp }, by simp [List.find?_cons, heq],
        heq, rfl, rfl⟩
    next hne =>
      obtain ⟨r, hr, h1, h2, h3⟩ := ih
      have hb : (t.user_id == uid) = false := by simpa using hne
      exact ⟨r, by simp [List.find?_cons, hb, hr], h1, h2, h3⟩

theorem tokensOk_count_le_one (ts : List RefreshTokenR) (h : tokensOk ts = true) (uid : Nat) :
    ((ts.filter (fun t => t.user_id == uid)).length) ≤ 1 := by
  induction ts with
  | nil => simp
  | cons t ts ih =>
    simp only [tokensOk, Bool.and_eq_true, Bool.not_eq_true'] at h
    obtain ⟨h1, h2⟩ := h
    by_cases hc : (t.user_id == uid) = true
    · have huid : t.user_id = uid := by simpa using hc
      have hnil : ts.filter (fun t2 => t2.user_id == uid) = [] := by
        rw [List.filter_eq_nil_iff]
        intro a ha
        have := (List.any_eq_false).mp h1 a ha
        simpa [huid] using this
      simp [List.filter_cons, hc, hnil]
    · have hb : (t.user_id == uid) = false := by simpa using hc
      simp only [List.filter_cons, hb, Bool.false_eq_true, if_neg]
      exact ih h2

theorem deleteTokenByUser_count (ts : List RefreshTokenR) (uid : Nat)
    (h : (ts.filter (fun t => t.user_id == uid)).length ≤ 1) :
    ((deleteTokenByUser ts uid).filter (fun t => t.user_id == uid)).length = 0 := by
  induction ts with
  | nil => simp [deleteTokenByUser]
  | cons t ts ih =>
    simp only [deleteTokenByUser]
    split
    next heq =>
      have hb : (t.user_id == uid) = true := by simpa using heq
      simp only [List.filter_cons, hb, if_pos, List.length_cons] at h
      omega
    next hne =>
      have hb : (t.user_id == uid) = false := by simpa using hne
      simp only [List.filter_cons, hb, Bool.false_eq_true, if_neg] at h ⊢
      exact ih h

theorem deleteTokenByUser_filter_ne (ts : List RefreshTokenR) (uid v : Nat) (h : v ≠ uid) :
    (deleteTokenByUser ts uid).filter (fun t => t.user_id == v) =
      ts.filter (fun t => t.user_id == v) := by
  have hvu : ¬ uid = v := fun hh => h hh.symm
  induction ts with
  | nil => simp [deleteTokenByUser]
  | cons t ts ih =>
    simp only [deleteTokenByUser]
    split
    next heq =>
      simp [List.filter_cons, heq, hvu]
    next hne =>
      simp [List.filter_cons, ih]

/-- No two user rows share an `id` (the primary-key constraint on `users`). -/
def usersOk : List UserR → Bool
  | [] => true
  | u :: us => (!us.any (fun v => v.id == u.id)) && usersOk us

/-- After replacing the first row with id `uid` by a row `u'` that fails the
predicate, no row matches the predicate, provided every original match had
id `uid` and ids are unique. -/
theorem find?_updateUsers_none (l : List UserR) (uid : Nat) (u' : UserR) (p : UserR → Bool)
    (hp : p u' = false) (huniq : usersOk l = true)
    (hall : ∀ v ∈ l, p v = true → v.id = uid) :
    (updateUsers l uid u').find? p = none := by
  induction l with
  | nil => simp [updateUsers]
  | cons u us ih =>
    simp only [usersOk, Bool.and_eq_true, Bool.not_eq_true'] at huniq
    simp only [updateUsers]
    split
    next heq =>
      rw [List.find?_cons_of_neg _ (by simp [hp]), List.find?_eq_none]
      intro v hv
      by_contra hpv
      have hvid : v.id = uid := hall v (List.mem_cons_of_mem _ hv) (by simpa using hpv)
      have := (List.any_eq_false).mp huniq.1 v hv
      simp [hvid, heq] at this
    next hne =>
      have hpu : p u = false := by
        by_contra hpu
        exact hne (hall u (List.mem_cons_self _ _) (by simpa using hpu))
      rw [List.find?_cons_of_neg _ (by simp [hpu])]
      exact ih huniq.2 (fun v hv => hall v (List.mem_cons_of_mem _ hv))

/-- Replacing the first match of `p` (whose id is `uid`) by a row `u'` that
still matches `p` keeps it the first match, under unique ids. -/
theorem find?_updateUsers_self (l : List UserR) (uid : Nat) (u' user : UserR) (p : UserR → Bool)
    (huser : l.find? p = some user) (hid : user.id = uid)
    (huniq : usersOk l = true) (hp : p u' = true) :
    (updateUsers l uid u').find? p = some u' := by
  induction l with
  | nil => simp at huser
  | cons u us ih =>
    simp only [usersOk, Bool.and_eq_true, Bool.not_eq_true'] at huniq
    by_cases hpu : p u = true
    · rw [List.find?_cons_of_pos _ hpu] at huser
      have huu : u = user := by simpa using huser
      subst huu
      simp only [updateUsers, hid, if_pos]
      rw [List.find?_cons_of_pos _ hp]
    · have hpu' : p u = false := by simpa using hpu
      rw [List.find?_cons_of_neg _ (by simp [hpu'])] at huser
      have hmem : user ∈ us := List.mem_of_find?_eq_some huser
      have hne : ¬ u.id = uid := by
        intro hh
        have := (List.any_eq_false).mp huniq.1 user hmem
        simp [hid, hh] at this
      simp only [updateUsers]
      rw [if_neg hne, List.find?_cons_of_neg _ (by simp [hpu'])]
      exact ih huser huniq.2

/-! ## Shape lemmas: the exact outcome of each endpoint, by case -/

theorem login_user_shape (rawVerify : String → String → Option Bool)
    (email password ip device refreshValue : String) (now refreshExpiry : Nat) (db : DB) :
    (∃ e, login_user rawVerify email password ip device refreshValue now refreshExpiry db =
      ⟨.error e, db, 0⟩) ∨
    (∃ user, get_user_by_email db email = .ok user ∧
      user.provider = AuthProviderEnum.LOCAL ∧ user.is_active = true ∧
      user.is_verified = true ∧
      pyStrFalsy user.hashed_password = false ∧
      verify_password rawVerify password user.hashed_password = true ∧
      login_user rawVerify email password ip device refreshValue now refreshExpiry db =
        ⟨.ok ⟨toString user.id,
              create_access_token (some user.email) (toString user.id) user.email now,
              "bearer", refreshValue⟩,
         ⟨updateUsers db.users user.id
            { user with last_login_ip := some ip, last_login_device := some device,
                        last_login_at := some now },
          upsertToken db.tokens user.id refreshValue refreshExpiry⟩, 1⟩) := by
  unfold login_user
  cases hu : get_user_by_email db email with
  | error e => exact Or.inl ⟨e, rfl⟩
  | ok user =>
    dsimp only
    by_cases h1 : user.provider ≠ AuthProviderEnum.LOCAL
    · exact Or.inl ⟨providerErr, by rw [if_pos h1]⟩
    · rw [if_neg h1]
      by_cases h2 : ¬ user.is_active
      · exact Or.inl ⟨inactiveErr, by rw [if_pos h2]⟩
      · rw [if_neg h2]
        by_cases h3 : pyStrFalsy user.hashed_password
            ∨ ¬ verify_password rawVerify password user.hashed_password
        · exact Or.inl ⟨⟨400, "Invalid email or password"⟩, by rw [if_pos h3]⟩
        · rw [if_neg h3]
          by_cases h4 : ¬ user.is_verified
          · exact Or.inl ⟨⟨403, "Email not verified"⟩, by rw [if_pos h4]⟩
          · rw [if_neg h4]
            push_neg at h3
            refine Or.inr ⟨user, rfl, not_not.mp h1, ?_, ?_, ?_, h3.2, rfl⟩
            · exact Bool.of_not_eq_false fun hh => h2 (by simp [hh])
            · exact Bool.of_not_eq_false fun hh => h4 (by simp [hh])
            · exact Bool.eq_false_iff.mpr h3.1

theorem refresh_access_token_shape (refresh_token : String) (now : Nat) (db : DB) :
    (∃ e, refresh_access_token refresh_token now db = ⟨.error e, db, 0⟩) ∨
    (∃ rt user, db.tokens.find? (fun t => t.token == refresh_token) = some rt ∧
      ¬ rt.expires_at < now ∧
      db.users.find? (fun u => u.id == rt.user_id) = some user ∧ user.is_active = true ∧
      refresh_access_token refresh_token now db =
        ⟨.ok ⟨toString user.id,
              create_access_token (some user.email) (toString user.id) user.email now,
              "bearer", refresh_token⟩, db, 0⟩) := by
  unfold refresh_access_token
  cases hf : db.tokens.find? (fun t => t.token == refresh_token) with
  | none => exact Or.inl ⟨_, rfl⟩
  | some rt =>
    dsimp only
    by_cases hex : rt.expires_at < now
    · exact Or.inl ⟨_, by rw [if_pos hex]⟩
    · rw [if_neg hex]
      cases hu : db.users.find? (fun u => u.id == rt.user_id) with
      | none => exact Or.inl ⟨_, rfl⟩
      | some user =>
        dsimp only
        by_cases hact : ¬ user.is_active
        · exact Or.inl ⟨_, by rw [if_pos hact]⟩
        · rw [if_neg hact]
          exact Or.inr ⟨rt, user, rfl, hex, hu,
            Bool.of_not_eq_false (fun hh => hact (by simp [hh])), rfl⟩

theorem verify_email_shape (code now : Nat) (db : DB) :
    (∃ e, verify_email code now db = ⟨.error e, db, 0⟩) ∨
    (∃ user, db.users.find? (verificationQueryHit now code) = some user ∧
      user.is_verified = true ∧
      verify_email code now db = ⟨.ok "Email already verified", db, 0⟩) ∨
    (∃ user, db.users.find? (verificationQueryHit now code) = some user ∧
      user.is_verified = false ∧
      verify_email code now db =
        ⟨.ok "Email verified successfully",
         ⟨updateUsers db.users user.id
            { user with is_verified := true, verification_code := none,
                        verification_expires_at := none },
          db.tokens⟩, 1⟩) := by
  unfold verify_email
  cases hf : db.users.find? (verificationQueryHit now code) with
  | none => exact Or.inl ⟨_, rfl⟩
  | some user =>
    dsimp only
    by_cases hv : user.is_verified
    · exact Or.inr (Or.inl ⟨user, rfl, by simpa using hv, by rw [if_pos hv]⟩)
    · rw [if_neg hv]
      exact Or.inr (Or.inr ⟨user, rfl, by simpa using hv, rfl⟩)

theorem resend_verification_code_shape (email : String) (newCode now : Nat) (db : DB) :
    (∃ e, resend_verification_code email newCode now db = ⟨.error e, db, 0⟩) ∨
    (∃ user, db.users.find? (fun u => u.email == email) = some user ∧
      user.is_verified = false ∧
      resend_verification_code email newCode now db =
        ⟨.ok "A new verification code has been sent to your email",
         ⟨updateUsers db.users user.id
            { user with verification_code := some newCode,
                        verification_expires_at := some (now + 15) },
          db.tokens⟩, 1⟩) := by
  unfold resend_verification_code
  cases hf : db.users.find? (fun u => u.email == email) with
  | none => exact Or.inl ⟨_, rfl⟩
  | some user =>
    dsimp only
    by_cases hv : user.is_verified
    · exact Or.inl ⟨_, by rw [if_pos hv]⟩
    · rw [if_neg hv]
      exact Or.inr ⟨user, rfl, by simpa using hv, rfl⟩

theorem forgot_password_shape (email : String) (resetCode now : Nat) (db : DB) :
    (∃ e, forgot_password email resetCode now db = ⟨.error e, db, 0⟩) ∨
    (∃ user, get_user_by_email db email = .ok user ∧
      user.provider = AuthProviderEnum.LOCAL ∧ user.is_active = true ∧
      forgot_password email resetCode now db =
        ⟨.ok "Password reset code sent to your email",
         ⟨updateUsers db.users user.id
            { user with reset_code := some resetCode,
                        reset_expires_at := some (now + 15), reset_verified := false },
          db.tokens⟩, 1⟩) := by
  unfold forgot_password
  cases hu : get_user_by_email db email with
  | error e => exact Or.inl ⟨e, rfl⟩
  | ok user =>
    dsimp only
    by_cases h1 : user.provider ≠ AuthProviderEnum.LOCAL
    · exact Or.inl ⟨_, by rw [if_pos h1]⟩
    · rw [if_neg h1]
      by_cases h2 : ¬ user.is_active
      · exact Or.inl ⟨_, by rw [if_pos h2]⟩
      · rw [if_neg h2]
        exact Or.inr ⟨user, rfl, not_not.mp h1,
          Bool.of_not_eq_false (fun hh => h2 (by simp [hh])), rfl⟩

theorem verify_forgot_password_otp_shape (code now : Nat) (db : DB) :
    (∃ e, verify_forgot_password_otp code now db = ⟨.error e, db, 0⟩) ∨
    (∃ user, db.users.find? (fun u => u.reset_code == some code) = some user ∧
      user.provider = AuthProviderEnum.LOCAL ∧ user.is_active = true ∧
      validate_reset_code user code now = .ok () ∧
      verify_forgot_password_otp code now db =
        ⟨.ok "OTP verified successfully. You can now set a new password.",
         ⟨updateUsers db.users user.id { user with reset_verified := true }, db.tokens⟩, 1⟩) := by
  unfold verify_forgot_password_otp
  cases hf : db.users.find? (fun u => u.reset_code == some code) with
  | none => exact Or.inl ⟨_, rfl⟩
  | some user =>
    dsimp only
    by_cases h1 : user.provider ≠ AuthProviderEnum.LOCAL
    · exact Or.inl ⟨_, by rw [if_pos h1]⟩
    · rw [if_neg h1]
      by_cases h2 : ¬ user.is_active
      · exact Or.inl ⟨_, by rw [if_pos h2]⟩
      · rw [if_neg h2]
        cases hv : validate_reset_code user code now with
        | error e => exact Or.inl ⟨e, rfl⟩
        | ok u =>
          exact Or.inr ⟨user, rfl, not_not.mp h1,
            Bool.of_not_eq_false (fun hh => h2 (by simp [hh])), by rw [hv], rfl⟩

theorem set_new_password_shape (newHash : String) (db : DB) :
    (∃ e, set_new_password newHash db = ⟨.error e, db, 0⟩) ∨
    (∃ user, db.users.find? (fun u => u.reset_verified) = some user ∧
      user.provider = AuthProviderEnum.LOCAL ∧ user.is_active = true ∧
      set_new_password newHash db =
        ⟨.ok "Password updated successfully. You can now log in.",
         ⟨updateUsers db.users user.id
            { user with hashed_password := some newHash, reset_verified := false,
                        reset_code := none, reset_expires_at := none },
          deleteTokenByUser db.tokens user.id⟩, 1⟩) := by
  unfold set_new_password
  cases hf : db.users.find? (fun u => u.reset_verified) with
  | none => exact Or.inl ⟨_, rfl⟩
  | some user =>
    dsimp only
    by_cases h1 : user.provider ≠ AuthProviderEnum.LOCAL
    · exact Or.inl ⟨_, by rw [if_pos h1]⟩
    · rw [if_neg h1]
      by_cases h2 : ¬ user.is_active
      · exact Or.inl ⟨_, by rw [if_pos h2]⟩
      · rw [if_neg h2]
        exact Or.inr ⟨user, rfl, not_not.mp h1,
          Bool.of_not_eq_false (fun hh => h2 (by simp [hh])), rfl⟩

theorem reset_password_shape (rawVerify : String → String → Option Bool)
    (userId : Nat) (old_password newHash : String) (db : DB) :
    (∃ e, reset_password rawVerify userId old_password newHash db = ⟨.error e, db, 0⟩) ∨
    (∃ user, db.users.find? (fun u => u.id == userId) = some user ∧
      user.is_active = true ∧ user.provider = AuthProviderEnum.LOCAL ∧
      verify_password rawVerify old_password user.hashed_password = true ∧
      reset_password rawVerify userId old_password newHash db =
        ⟨.ok "Password reset successfully",
         ⟨updateUsers db.users user.id { user with hashed_password := some newHash },
          db.tokens⟩, 1⟩) := by
  unfold reset_password
  cases hf : db.users.find? (fun u => u.id == userId) with
  | none => exact Or.inl ⟨_, rfl⟩
  | some user =>
    dsimp only
    by_cases h0 : ¬ user.is_active
    · exact Or.inl ⟨_, by rw [if_pos h0]⟩
    · rw [if_neg h0]
      by_cases h1 : user.provider ≠ AuthProviderEnum.LOCAL
      · exact Or.inl ⟨_, by rw [if_pos h1]⟩
      · rw [if_neg h1]
        by_cases h2 : ¬ verify_password rawVerify old_password user.hashed_password
        · exact Or.inl ⟨_, by rw [if_pos h2]⟩
        · rw [if_neg h2]
          exact Or.inr ⟨user, rfl,
            Bool.of_not_eq_false (fun hh => h0 (by simp [hh])), not_not.mp h1,
            Bool.of_not_eq_false (fun hh => h2 (by simp [hh])), rfl⟩

theorem register_user_shape (username email hashedPassword : String)
    (code now : Nat) (imageUrl : Option String) (newId : Nat) (db : DB) :
    (∃ e, register_user username email hashedPassword code now imageUrl newId db =
      ⟨.error e, db, 0⟩) ∨
    (∃ existing, db.users.find? (fun u => u.email == normalizeEmail email) = some existing ∧
      existing.is_verified = false ∧
      register_user username email hashedPassword code now imageUrl newId db =
        ⟨.ok "A new verification code has been sent to your email",
         ⟨updateUsers db.users existing.id
            { existing with verification_code := some code,
                            verification_expires_at := some (now + 15) },
          db.tokens⟩, 1⟩) ∨
    (db.users.find? (fun u => u.email == normalizeEmail email) = none ∧
      register_user username email hashedPassword code now imageUrl newId db =
        ⟨.ok "User registered successfully. Please check your email for the 6-digit code.",
         ⟨db.users ++ [registerNewUser username email hashedPassword code now imageUrl newId],
          db.tokens⟩, 1⟩) := by
  unfold register_user
  dsimp only
  cases hf : db.users.find? (fun u => u.email == normalizeEmail email) with
  | none => exact Or.inr (Or.inr ⟨rfl, rfl⟩)
  | some existing =>
    dsimp only
    by_cases hv : existing.is_verified
    · exact Or.inl ⟨_, by rw [if_pos hv]⟩
    · rw [if_neg hv]
      exact Or.inr (Or.inl ⟨existing, rfl, by simpa using hv, rfl⟩)

theorem google_sign_in_shape (verified : Option GoogleIdInfo) (payload : GooglePayload)
    (refreshValue : String) (refreshExpiry now newId : Nat) (db : DB) :
    (∃ e, google_sign_in verified payload refreshValue refreshExpiry now newId db =
      ⟨.error e, db, 0⟩) ∨
    (∃ idinfo user, verified = some idinfo ∧
      db.users.find? (fun u => u.email == normalizeEmail (idinfo.email.getD "")) = some user ∧
      user.provider = AuthProviderEnum.GOOGLE ∧ user.is_active = true ∧
      google_sign_in verified payload refreshValue refreshExpiry now newId db =
        ⟨.ok ⟨toString user.id, create_access_token none (toString user.id) user.email now,
              "bearer", refreshValue⟩,
         ⟨updateUsers db.users user.id
            { user with google_sub := idinfo.sub, google_picture := idinfo.picture,
                        last_google_id_token := some payload.id_token },
          upsertToken db.tokens user.id refreshValue refreshExpiry⟩, 2⟩) ∨
    (∃ idinfo uname, verified = some idinfo ∧
      db.users.find? (fun u => u.email == normalizeEmail (idinfo.email.getD "")) = none ∧
      probeUsername (fun c => db.users.any (fun u => u.username == c))
        (googleBaseUsername payload (normalizeEmail (idinfo.email.getD "")))
        (db.users.length + 1)
        (googleFirstCandidate payload (normalizeEmail (idinfo.email.getD ""))) 1 = some uname ∧
      google_sign_in verified payload refreshValue refreshExpiry now newId db =
        ⟨.ok ⟨toString newId,
              create_access_token none (toString newId) (normalizeEmail (idinfo.email.getD "")) now,
              "bearer", refreshValue⟩,
         ⟨db.users ++ [googleNewUser idinfo payload uname (normalizeEmail (idinfo.email.getD "")) newId],
          upsertToken db.tokens newId refreshValue refreshExpiry⟩, 2⟩) := by
  unfold google_sign_in
  cases verified with
  | none => exact Or.inl ⟨_, rfl⟩
  | some idinfo =>
    dsimp only
    by_cases hiss : idinfo.iss ≠ "accounts.google.com" ∧ idinfo.iss ≠ "https://accounts.google.com"
    · exact Or.inl ⟨_, by rw [if_pos hiss]⟩
    · rw [if_neg hiss]
      by_cases hemail : normalizeEmail (idinfo.email.getD "") = ""
      · exact Or.inl ⟨_, by rw [if_pos hemail]⟩
      · rw [if_neg hemail]
        cases hf : db.users.find? (fun u => u.email == normalizeEmail (idinfo.email.getD "")) with
        | some user =>
          dsimp only
          by_cases hprov : user.provider ≠ AuthProviderEnum.GOOGLE
          · exact Or.inl ⟨_, by rw [if_pos hprov]⟩
          · rw [if_neg hprov]
            by_cases hact : ¬ user.is_active
            · exact Or.inl ⟨_, by rw [if_pos hact]⟩
            · rw [if_neg hact]
              exact Or.inr (Or.inl ⟨idinfo, user, rfl, hf, not_not.mp hprov,
                Bool.of_not_eq_false (fun hh => hact (by simp [hh])), rfl⟩)
        | none =>
          dsimp only
          cases hp : probeUsername (fun c => db.users.any (fun u => u.username == c))
              (googleBaseUsername payload (normalizeEmail (idinfo.email.getD "")))
              (db.users.length + 1)
              (googleFirstCandidate payload (normalizeEmail (idinfo.email.getD ""))) 1 with
          | none => exact Or.inl ⟨_, rfl⟩
          | some uname => exact Or.inr (Or.inr ⟨idinfo, uname, rfl, hf, hp, rfl⟩)

theorem logout_user_shape (refresh_token : String) (db : DB) :
    (db.tokens.find? (fun t => t.token == refresh_token) = none ∧
      logout_user refresh_token db = ⟨.ok "Signed out successfully", db, 0⟩) ∨
    (∃ rt, db.tokens.find? (fun t => t.token == refresh_token) = some rt ∧
      logout_user refresh_token db =
        ⟨.ok "Signed out successfully",
         ⟨db.users, deleteTokenByValue db.tokens refresh_token⟩, 1⟩) := by
  unfold logout_user
  cases hf : db.tokens.find? (fun t => t.token == refresh_token) with
  | none => exact Or.inl ⟨rfl, rfl⟩
  | some rt => exact Or.inr ⟨rt, rfl, rfl⟩

/-! ## Preservation of the one-token-per-user invariant -/

theorem login_user_db_inv (rawVerify : String → String → Option Bool)
    (email password ip device refreshValue : String) (now refreshExpiry : Nat)
    (db : DB) (h : RefreshInv db) :
    RefreshInv (login_user rawVerify email password ip device refreshValue now refreshExpiry db).db := by
  rcases login_user_shape rawVerify email password ip device refreshValue now refreshExpiry db with
    ⟨e, heq⟩ | ⟨user, _, _, _, _, _, _, heq⟩
  · rw [heq]; exact h
  · rw [heq]; exact tokensOk_upsert _ _ _ _ h

theorem google_sign_in_db_inv (verified : Option GoogleIdInfo) (payload : GooglePayload)
    (refreshValue : String) (refreshExpiry now newId : Nat) (db : DB) (h : RefreshInv db) :
    RefreshInv (google_sign_in verified payload refreshValue refreshExpiry now newId db).db := by
  rcases google_sign_in_shape verified payload refreshValue refreshExpiry now newId db with
    ⟨e, heq⟩ | ⟨idinfo, user, _, _, _, _, heq⟩ | ⟨idinfo, uname, _, _, _, heq⟩
  · rw [heq]; exact h
  · rw [heq]; exact tokensOk_upsert _ _ _ _ h
  · rw [heq]; exact tokensOk_upsert _ _ _ _ h

theorem applyEvent_inv (rawVerify : String → String → Option Bool) (db : DB)
    (e : AuthEvent) (h : RefreshInv db) : RefreshInv (applyEvent rawVerify db e) := by
  cases e with
  | loginEv email password ip device refreshValue now refreshExpiry =>
    exact login_user_db_inv rawVerify email password ip device refreshValue now refreshExpiry db h
  | googleEv verified payload refreshValue refreshExpiry now newId =>
    exact google_sign_in_db_inv verified payload refreshValue refreshExpiry now newId db h

theorem runEvents_inv (rawVerify : String → String → Option Bool) (es : List AuthEvent)
    (db : DB) (h : RefreshInv db) : RefreshInv (runEvents rawVerify db es) := by
  induction es generalizing db with
  | nil => simpa [runEvents] using h
  | cons e es ih =>
    simp only [runEvents, List.foldl_cons]
    exact ih _ (applyEvent_inv rawVerify db e h)

/-! ## Concrete fixtures used by witnesses and counterexamples -/

/-- A bcrypt oracle that accepts every (plain, hash) pair. -/
def rvAlways : String → String → Option Bool := fun _ _ => some true

/-- A verified, active LOCAL user. -/
def userAlice : UserR :=
  { id := 1, username := "alice", email := "alice@x.com", hashed_password := some "H1",
    is_verified := true, is_active := true, provider := AuthProviderEnum.LOCAL,
    verification_code := none, verification_expires_at := none,
    reset_code := none, reset_expires_at := none, reset_verified := false,
    google_sub := none, google_picture := none, last_google_id_token := none,
    profile_image_url := none, last_login_ip := none, last_login_device := none,
    last_login_at := none }

/-- A store holding just `userAlice` and no refresh tokens. -/
def dbAlice : DB := ⟨[userAlice], []⟩

/-- The empty store. -/
def dbEmpty : DB := ⟨[], []⟩

/-- `userAlice` together with her live refresh token (expiry 100). -/
def dbAliceToken : DB := ⟨[userAlice], [⟨1, "rtok", 100⟩]⟩

/-- A verified, active LOCAL user whose password hash is absent. -/
def userNoHash : UserR :=
  { userAlice with id := 2, username := "nohash", email := "nohash@x.com",
                   hashed_password := none }

/-- A store holding just `userNoHash`. -/
def dbNoHash : DB := ⟨[userNoHash], []⟩

/-- A LOCAL user with a pending password-reset code `123456` (expiry 1000),
not yet OTP-verified. -/
def userCarol : UserR :=
  { userAlice with id := 3, username := "carol", email := "carol@x.com",
                   hashed_password := some "H3", reset_code := some 123456,
                   reset_expires_at := some 1000 }

/-- A store holding just `userCarol`. -/
def dbCarol : DB := ⟨[userCarol], []⟩

/-- An active GOOGLE-provider user. -/
def userDana : UserR :=
  { userAlice with id := 4, username := "dana", email := "dana@g.com",
                   hashed_password := none, provider := AuthProviderEnum.GOOGLE,
                   google_sub := some "gsub" }

/-- A store holding just `userDana`. -/
def dbDana : DB := ⟨[userDana], []⟩

/-- A verified Google ID token for `userDana`'s email. -/
def gInfoDana : GoogleIdInfo := ⟨"accounts.google.com", some "gsub", some "dana@g.com", none⟩

/-- The client payload accompanying `gInfoDana`. -/
def gPayloadDana : GooglePayload := ⟨"idtok", none, none⟩

/-- A LOCAL user whose username is `Bob`. -/
def userBobTaken : UserR :=
  { userAlice with id := 5, username := "Bob", email := "bobtaken@x.com" }

/-- A store in which the username `Bob` is already taken. -/
def dbBobTaken : DB := ⟨[userBobTaken], []⟩

/-- A verified Google ID token for a brand-new email. -/
def gInfoBob : GoogleIdInfo := ⟨"accounts.google.com", some "bsub", some "bob@g.com", none⟩

/-- A Google payload asserting the display name `Bob`. -/
def gPayloadBob : GooglePayload := ⟨"idtok2", some "Bob", none⟩

/-- A LOCAL user with `reset_verified` set. -/
def userEve : UserR :=
  { userAlice with id := 6, username := "eve", email := "eve@x.com",
                   hashed_password := some "H6", reset_verified := true }

/-- A second LOCAL user with `reset_verified` set. -/
def userFrank : UserR :=
  { userAlice with id := 7, username := "frank", email := "frank@x.com",
                   hashed_password := some "H7", reset_verified := true }

/-- A store in which two users simultaneously have `reset_verified` true. -/
def dbEveFrank : DB := ⟨[userEve, userFrank], []⟩

/-- An unverified LOCAL user with a pending verification code `111111`
(expiry 1000), stored under the normalised email `bob@x.com`. -/
def userBobPending : UserR :=
  { userAlice with id := 8, username := "bob", email := "bob@x.com",
                   hashed_password := some "H8", is_verified := false,
                   verification_code := some 111111,
                   verification_expires_at := some 1000 }

/-- A store holding just `userBobPending`. -/
def dbBobPending : DB := ⟨[userBobPending], []⟩

/-! ## Claims -/

/-- C1: for every user and every sequence of successful logins (password
login or Google sign-in), the store holds at most one refresh-token row per
user; a successful login leaves exactly one row for the logging-in user,
holding the freshly issued token value and expiry (first login inserts it,
later logins overwrite the same row in place), and leaves every other
user's rows untouched.  The same holds for a successful Google sign-in. -/
theorem refresh_token_row_unique_across_logins :
    (∀ rawVerify db es, RefreshInv db → RefreshInv (runEvents rawVerify db es)) ∧
    (∀ rawVerify email password ip device refreshValue now refreshExpiry db user,
      RefreshInv db →
      get_user_by_email db email = .ok user →
      (∃ resp, (login_user rawVerify email password ip device refreshValue now refreshExpiry db).result
        = .ok resp) →
      countRefreshTokens
        (login_user rawVerify email password ip device refreshValue now refreshExpiry db).db
        user.id = 1 ∧
      (∃ r, (login_user rawVerify email password ip device refreshValue now refreshExpiry db).db.tokens.find?
          (fun t => t.user_id == user.id) = some r ∧
        r.token = refreshValue ∧ r.expires_at = refreshExpiry) ∧
      (∀ v, v ≠ user.id →
        (login_user rawVerify email password ip device refreshValue now refreshExpiry db).db.tokens.filter
            (fun t => t.user_id == v) =
          db.tokens.filter (fun t => t.user_id == v))) ∧
    (∀ verified payload refreshValue refreshExpiry now newId db resp,
      RefreshInv db →
      (google_sign_in verified payload refreshValue refreshExpiry now newId db).result = .ok resp →
      ∃ uid, resp.user_id = toString uid ∧
        countRefreshTokens
          (google_sign_in verified payload refreshValue refreshExpiry now newId db).db uid = 1 ∧
        (∀ v, v ≠ uid →
          (google_sign_in verified payload refreshValue refreshExpiry now newId db).db.tokens.filter
              (fun t => t.user_id == v) =
            db.tokens.filter (fun t => t.user_id == v))) := by
  refine ⟨fun rawVerify db es h => runEvents_inv rawVerify es db h, ?_, ?_⟩
  · intro rawVerify email password ip device refreshValue now refreshExpiry db user hinv huser hok
    rcases login_user_shape rawVerify email password ip device refreshValue now refreshExpiry db with
      ⟨e, heq⟩ | ⟨user0, hu0, _, _, _, _, _, heq⟩
    · obtain ⟨resp, hr⟩ := hok
      rw [heq] at hr
      simp at hr
    · have huu : user0 = user := by
        rw [hu0] at huser
        exact (Except.ok.injEq _ _ ▸ huser)
      subst huu
      rw [heq]
      refine ⟨?_, ?_, ?_⟩
      · show (List.filter (fun t => t.user_id == user0.id)
          (upsertToken db.tokens user0.id refreshValue refreshExpiry)).length = 1
        rw [count_upsert]
        have hle := tokensOk_count_le_one db.tokens hinv user0.id
        omega
      · obtain ⟨r, hr, _, h2, h3⟩ := find?_upsert db.tokens user0.id refreshValue refreshExpiry
        exact ⟨r, hr, h2, h3⟩
      · intro v hv
        exact filter_upsert_ne db.tokens user0.id v refreshValue refreshExpiry hv
  · intro verified payload refreshValue refreshExpiry now newId db resp hinv hok
    rcases google_sign_in_shape verified payload refreshValue refreshExpiry now newId db with
      ⟨e, heq⟩ | ⟨idinfo, user, _, _, _, _, heq⟩ | ⟨idinfo, uname, _, _, _, heq⟩
    · rw [heq] at hok
      simp at hok
    · rw [heq] at hok
      simp only [Except.ok.injEq] at hok
      refine ⟨user.id, ?_, ?_, ?_⟩
      · rw [← hok]
      · rw [heq]
        show (List.filter (fun t => t.user_id == user.id)
          (upsertToken db.tokens user.id refreshValue refreshExpiry)).length = 1
        rw [count_upsert]
        have hle := tokensOk_count_le_one db.tokens hinv user.id
        omega
      · intro v hv
        rw [heq]
        exact filter_upsert_ne db.tokens user.id v refreshValue refreshExpiry hv
    · rw [heq] at hok
      simp only [Except.ok.injEq] at hok
      refine ⟨newId, ?_, ?_, ?_⟩
      · rw [← hok]
      · rw [heq]
        show (List.filter (fun t => t.user_id == newId)
          (upsertToken db.tokens newId refreshValue refreshExpiry)).length = 1
        rw [count_upsert]
        have hle := tokensOk_count_le_one db.tokens hinv newId
        omega
      · intro v hv
        rw [heq]
        exact filter_upsert_ne db.tokens newId v refreshValue refreshExpiry hv

/-- Witness for C1 at a concrete input: a first login for `userAlice`
leaves exactly one refresh-token row for her. -/
theorem refresh_token_row_unique_across_logins_witness :
    countRefreshTokens
      (login_user rvAlways "alice@x.com" "pw" "ip" "dev" "rt1" 0 100 dbAlice).db
      userAlice.id = 1 :=
  (refresh_token_row_unique_across_logins.2.1 rvAlways "alice@x.com" "pw" "ip" "dev" "rt1"
    0 100 dbAlice userAlice rfl rfl
    ⟨⟨"1", create_access_token (some "alice@x.com") "1" "alice@x.com" 0, "bearer", "rt1"⟩, rfl⟩).1

/-- C4: refreshing fails with a 401 when the raw token is absent from the
store or its expiry has passed; when the token is present, unexpired and
its owner is active, it succeeds, the returned access token decodes (at
issuance time) to claims whose embedded user id is the owner's id, the
returned refresh token is the submitted one, and the store — in particular
the stored refresh-token row — is left unchanged. -/
theorem refresh_token_validation_no_rotation :
    (∀ refresh_token now db,
      db.tokens.find? (fun t => t.token == refresh_token) = none →
      refresh_access_token refresh_token now db =
        ⟨.error ⟨401, "Invalid refresh token"⟩, db, 0⟩) ∧
    (∀ refresh_token now db rt,
      db.tokens.find? (fun t => t.token == refresh_token) = some rt →
      rt.expires_at < now →
      refresh_access_token refresh_token now db =
        ⟨.error ⟨401, "Expired refresh token"⟩, db, 0⟩) ∧
    (∀ refresh_token now db rt user,
      db.tokens.find? (fun t => t.token == refresh_token) = some rt →
      ¬ rt.expires_at < now →
      db.users.find? (fun u => u.id == rt.user_id) = some user →
      user.is_active = true →
      (refresh_access_token refresh_token now db).db = db ∧
      (refresh_access_token refresh_token now db).commits = 0 ∧
      ∃ resp, (refresh_access_token refresh_token now db).result = .ok resp ∧
        decode_access_token resp.access_token now = .ok resp.access_token ∧
        resp.access_token.user_id = toString user.id ∧
        resp.refresh_token = refresh_token) := by
  refine ⟨?_, ?_, ?_⟩
  · intro refresh_token now db hf
    unfold refresh_access_token
    rw [hf]
  · intro refresh_token now db rt hf hex
    unfold refresh_access_token
    rw [hf]
    dsimp only
    rw [if_pos hex]
  · intro refresh_token now db rt user hf hex hu hact
    have hdec : ¬ (now + ACCESS_TOKEN_EXPIRE_MINUTES ≤ now) := by
      unfold ACCESS_TOKEN_EXPIRE_MINUTES
      omega
    unfold refresh_access_token
    rw [hf]
    dsimp only
    rw [if_neg hex, hu]
    dsimp only
    rw [if_neg (by simp [hact] : ¬ ¬ user.is_active = true)]
    refine ⟨rfl, rfl,
      ⟨toString user.id, create_access_token (some user.email) (toString user.id) user.email now,
       "bearer", refresh_token⟩, rfl, ?_, rfl, rfl⟩
    unfold decode_access_token create_access_token
    rw [if_neg hdec]

/-- Witness for C4: refreshing `userAlice`'s live token before its expiry
leaves the store unchanged. -/
theorem refresh_token_validation_no_rotation_witness :
    (refresh_access_token "rtok" 50 dbAliceToken).db = dbAliceToken :=
  (refresh_token_validation_no_rotation.2.2 "rtok" 50 dbAliceToken ⟨1, "rtok", 100⟩ userAlice
    rfl (by decide) rfl rfl).1

/-- C10: `verify_password` never raises: it returns `false` whenever the
stored hash is `None`, empty, or makes the bcrypt backend raise; and
password login against a LOCAL account with no stored hash fails with the
400 invalid-credential error, leaving the store unchanged. -/
theorem verify_password_total_no_hash_login_fails :
    (∀ rawVerify plain, verify_password rawVerify plain none = false) ∧
    (∀ rawVerify plain, verify_password rawVerify plain (some "") = false) ∧
    (∀ rawVerify plain h, rawVerify plain h = none →
      verify_password rawVerify plain (some h) = false) ∧
    (∀ rawVerify email password ip device refreshValue now refreshExpiry db user,
      get_user_by_email db email = .ok user →
      user.provider = AuthProviderEnum.LOCAL →
      user.is_active = true →
      user.hashed_password = none →
      login_user rawVerify email password ip device refreshValue now refreshExpiry db =
        ⟨.error ⟨400, "Invalid email or password"⟩, db, 0⟩) := by
  refine ⟨?_, ?_, ?_, ?_⟩
  · intro rv plain
    rfl
  · intro rv plain
    simp [verify_password, pyStrFalsy]
  · intro rv plain h hr
    by_cases hh : h = ""
    · simp [verify_password, pyStrFalsy, hh]
    · simp [verify_password, pyStrFalsy, hh, hr]
  · intro rv email password ip device refreshValue now refreshExpiry db user hu hprov hact hnone
    unfold login_user
    rw [hu]
    dsimp only
    rw [if_neg (by simp [hprov] : ¬ user.provider ≠ AuthProviderEnum.LOCAL)]
    rw [if_neg (by simp [hact] : ¬ ¬ user.is_active = true)]
    rw [if_pos (Or.inl (by simp [hnone, pyStrFalsy]))]

/-- Witness for C10: logging in as the hashless `userNoHash` fails with the
invalid-credential error and leaves the store unchanged. -/
theorem verify_password_total_no_hash_login_fails_witness :
    login_user rvAlways "nohash@x.com" "pw" "ip" "dev" "rt1" 0 100 dbNoHash =
      ⟨.error ⟨400, "Invalid email or password"⟩, dbNoHash, 0⟩ :=
  verify_password_total_no_hash_login_fails.2.2.2 rvAlways "nohash@x.com" "pw" "ip" "dev"
    "rt1" 0 100 dbNoHash userNoHash rfl rfl rfl rfl

/-- C3: set-new-password fails (without touching the store) when no user
has `reset_verified` set; on success it updates the selected user's hash,
clears `reset_code`, `reset_expires_at` and `reset_verified` in the same
single-commit operation, and deletes the user's refresh-token row (other
users' rows are untouched). -/
theorem set_new_password_precondition_and_effects :
    (∀ newHash db,
      db.users.find? (fun u => u.reset_verified) = none →
      set_new_password newHash db =
        ⟨.error ⟨400, "OTP verification required before setting a new password"⟩, db, 0⟩) ∧
    (∀ newHash db user,
      db.users.find? (fun u => u.reset_verified) = some user →
      user.provider = AuthProviderEnum.LOCAL → user.is_active = true →
      RefreshInv db →
      (set_new_password newHash db).result =
        .ok "Password updated successfully. You can now log in." ∧
      (set_new_password newHash db).db.users =
        updateUsers db.users user.id
          { user with hashed_password := some newHash, reset_verified := false,
                      reset_code := none, reset_expires_at := none } ∧
      countRefreshTokens (set_new_password newHash db).db user.id = 0 ∧
      (∀ v, v ≠ user.id →
        (set_new_password newHash db).db.tokens.filter (fun t => t.user_id == v) =
          db.tokens.filter (fun t => t.user_id == v)) ∧
      (set_new_password newHash db).commits = 1) := by
  refine ⟨?_, ?_⟩
  · intro newHash db hf
    unfold set_new_password
    rw [hf]
  · intro newHash db user hf hprov hact hinv
    unfold set_new_password
    rw [hf]
    dsimp only
    rw [if_neg (by simp [hprov] : ¬ user.provider ≠ AuthProviderEnum.LOCAL)]
    rw [if_neg (by simp [hact] : ¬ ¬ user.is_active = true)]
    refine ⟨rfl, rfl, ?_, ?_, rfl⟩
    · exact deleteTokenByUser_count db.tokens user.id
        (tokensOk_count_le_one db.tokens hinv user.id)
    · intro v hv
      exact deleteTokenByUser_filter_ne db.tokens user.id v hv

/-- Witness for C3: with `userCarol` OTP-verified, set-new-password
succeeds. -/
theorem set_new_password_precondition_and_effects_witness :
    (set_new_password "NH" ⟨[{ userCarol with reset_verified := true }], [⟨3, "rt", 9⟩]⟩).result =
      .ok "Password updated successfully. You can now log in." :=
  (set_new_password_precondition_and_effects.2 "NH"
    ⟨[{ userCarol with reset_verified := true }], [⟨3, "rt", 9⟩]⟩
    { userCarol with reset_verified := true } rfl rfl rfl rfl).1

/-- C9: the set-new-password payload carries no user identity; the
operation applies the submitted password to the FIRST user in store order
whose `reset_verified` flag is set.  In particular, when two users both
have `reset_verified` true, the first one's password is changed and the
second user is left untouched. -/
theorem set_new_password_identityless_first_match :
    (∀ newHash db user,
      db.users.find? (fun u => u.reset_verified) = some user →
      user.provider = AuthProviderEnum.LOCAL → user.is_active = true →
      (set_new_password newHash db).result =
        .ok "Password updated successfully. You can now log in." ∧
      (set_new_password newHash db).db.users =
        updateUsers db.users user.id
          { user with hashed_password := some newHash, reset_verified := false,
                      reset_code := none, reset_expires_at := none }) ∧
    (∀ newHash u1 u2 rest tokens,
      u1.reset_verified = true → u2.reset_verified = true →
      u1.provider = AuthProviderEnum.LOCAL → u1.is_active = true →
      (set_new_password newHash ⟨u1 :: u2 :: rest, tokens⟩).db.users =
        { u1 with hashed_password := some newHash, reset_verified := false,
                  reset_code := none, reset_expires_at := none } :: u2 :: rest) := by
  have main : ∀ newHash db user,
      db.users.find? (fun u => u.reset_verified) = some user →
      user.provider = AuthProviderEnum.LOCAL → user.is_active = true →
      (set_new_password newHash db).result =
        .ok "Password updated successfully. You can now log in." ∧
      (set_new_password newHash db).db.users =
        updateUsers db.users user.id
          { user with hashed_password := some newHash, reset_verified := false,
                      reset_code := none, reset_expires_at := none } := by
    intro newHash db user hf hprov hact
    unfold set_new_password
    rw [hf]
    dsimp only
    rw [if_neg (by simp [hprov] : ¬ user.provider ≠ AuthProviderEnum.LOCAL)]
    rw [if_neg (by simp [hact] : ¬ ¬ user.is_active = true)]
    exact ⟨rfl, rfl⟩
  refine ⟨main, ?_⟩
  intro newHash u1 u2 rest tokens h1 h2 hprov hact
  have hf : (u1 :: u2 :: rest).find? (fun u => u.reset_verified) = some u1 :=
    List.find?_cons_of_pos _ h1
  have := (main newHash ⟨u1 :: u2 :: rest, tokens⟩ u1 hf hprov hact).2
  rw [this]
  simp [updateUsers]

/-- Witness for C9: with both `userEve` and `userFrank` reset-verified, the
password lands on `userEve` (first in store order) and `userFrank` keeps
his hash. -/
theorem set_new_password_identityless_first_match_witness :
    (set_new_password "NH2" dbEveFrank).db.users =
      { userEve with hashed_password := some "NH2", reset_verified := false,
                     reset_code := none, reset_expires_at := none } :: [userFrank] :=
  set_new_password_identityless_first_match.2 "NH2" userEve userFrank [] [] rfl rfl rfl rfl

/-- C5: every password flow resolving to a GOOGLE-provider user is rejected
with an error and leaves the store unchanged: password login,
forgot-password, reset-OTP verification, set-new-password, and the
authenticated password change. -/
theorem google_accounts_reject_password_flows :
    (∀ rawVerify email password ip device refreshValue now refreshExpiry db user,
      get_user_by_email db email = .ok user → user.provider = AuthProviderEnum.GOOGLE →
      login_user rawVerify email password ip device refreshValue now refreshExpiry db =
        ⟨.error providerErr, db, 0⟩) ∧
    (∀ email resetCode now db user,
      get_user_by_email db email = .ok user → user.provider = AuthProviderEnum.GOOGLE →
      forgot_password email resetCode now db = ⟨.error providerErr, db, 0⟩) ∧
    (∀ code now db user,
      db.users.find? (fun u => u.reset_code == some code) = some user →
      user.provider = AuthProviderEnum.GOOGLE →
      verify_forgot_password_otp code now db = ⟨.error providerErr, db, 0⟩) ∧
    (∀ newHash db user,
      db.users.find? (fun u => u.reset_verified) = some user →
      user.provider = AuthProviderEnum.GOOGLE →
      set_new_password newHash db = ⟨.error providerErr, db, 0⟩) ∧
    (∀ rawVerify userId old_password newHash db user,
      db.users.find? (fun u => u.id == userId) = some user →
      user.provider = AuthProviderEnum.GOOGLE →
      ∃ e, reset_password rawVerify userId old_password newHash db = ⟨.error e, db, 0⟩) := by
  refine ⟨?_, ?_, ?_, ?_, ?_⟩
  · intro rawVerify email password ip device refreshValue now refreshExpiry db user hu hprov
    unfold login_user
    rw [hu]
    dsimp only
    rw [if_pos (by simp [hprov] : user.provider ≠ AuthProviderEnum.LOCAL)]
  · intro email resetCode now db user hu hprov
    unfold forgot_password
    rw [hu]
    dsimp only
    rw [if_pos (by simp [hprov] : user.provider ≠ AuthProviderEnum.LOCAL)]
  · intro code now db user hf hprov
    unfold verify_forgot_password_otp
    rw [hf]
    dsimp only
    rw [if_pos (by simp [hprov] : user.provider ≠ AuthProviderEnum.LOCAL)]
  · intro newHash db user hf hprov
    unfold set_new_password
    rw [hf]
    dsimp only
    rw [if_pos (by simp [hprov] : user.provider ≠ AuthProviderEnum.LOCAL)]
  · intro rawVerify userId old_password newHash db user hf hprov
    unfold reset_password
    rw [hf]
    dsimp only
    by_cases hact : ¬ user.is_active
    · exact ⟨inactiveErr, by rw [if_pos hact]⟩
    · rw [if_neg hact]
      exact ⟨providerErr, by
        rw [if_pos (by simp [hprov] : user.provider ≠ AuthProviderEnum.LOCAL)]⟩

/-- Witness for C5: a password login for `userDana`'s (GOOGLE) email fails
with the wrong-provider error and leaves the store unchanged. -/
theorem google_accounts_reject_password_flows_witness :
    login_user rvAlways "dana@g.com" "pw" "ip" "dev" "rt1" 0 100 dbDana =
      ⟨.error providerErr, dbDana, 0⟩ :=
  google_accounts_reject_password_flows.1 rvAlways "dana@g.com" "pw" "ip" "dev" "rt1"
    0 100 dbDana userDana rfl rfl

/-- Counterexample to C6: the store holds the unverified `userBobPending`
under the normalised email `bob@x.com`; `get_user_by_email` (used by login
and forgot-password) resolves the case-variant `Bob@x.com` to that user,
but `resend_verification_code` with the very same submitted string fails
with "No pending verification found" — its lookup compares the raw string,
not the lowercased/trimmed form. -/
theorem email_normalization_counterexample :
    get_user_by_email dbBobPending "Bob@x.com" = .ok userBobPending ∧
    userBobPending.is_verified = false ∧
    (resend_verification_code "Bob@x.com" 222222 0 dbBobPending).result =
      .error ⟨400, "No pending verification found"⟩ :=
  ⟨rfl, rfl, rfl⟩

/-- C6 (amended): register, login and forgot-password compare against the
lowercased and trimmed form of the submitted email, so normalisation-equal
inputs behave identically there; resend-code, however, compares the
submitted email verbatim, and fails whenever no stored email equals the
raw string. -/
theorem email_normalization_amended :
    (∀ db e1 e2, normalizeEmail e1 = normalizeEmail e2 →
      get_user_by_email db e1 = get_user_by_email db e2) ∧
    (∀ rawVerify e1 e2 password ip device refreshValue now refreshExpiry db,
      normalizeEmail e1 = normalizeEmail e2 →
      login_user rawVerify e1 password ip device refreshValue now refreshExpiry db =
        login_user rawVerify e2 password ip device refreshValue now refreshExpiry db) ∧
    (∀ e1 e2 resetCode now db, normalizeEmail e1 = normalizeEmail e2 →
      forgot_password e1 resetCode now db = forgot_password e2 resetCode now db) ∧
    (∀ username e1 e2 hashedPassword code now imageUrl newId db,
      normalizeEmail e1 = normalizeEmail e2 →
      register_user username e1 hashedPassword code now imageUrl newId db =
        register_user username e2 hashedPassword code now imageUrl newId db) ∧
    (∀ email newCode now db,
      db.users.find? (fun u => u.email == email) = none →
      resend_verification_code email newCode now db =
        ⟨.error ⟨400, "No pending verification found"⟩, db, 0⟩) := by
  have ha : ∀ db e1 e2, normalizeEmail e1 = normalizeEmail e2 →
      get_user_by_email db e1 = get_user_by_email db e2 := by
    intro db e1 e2 h
    unfold get_user_by_email
    rw [h]
  refine ⟨ha, ?_, ?_, ?_, ?_⟩
  · intro rawVerify e1 e2 password ip device refreshValue now refreshExpiry db h
    unfold login_user
    rw [ha db e1 e2 h]
  · intro e1 e2 resetCode now db h
    unfold forgot_password
    rw [ha db e1 e2 h]
  · intro username e1 e2 hashedPassword code now imageUrl newId db h
    have hreg : registerNewUser username e1 hashedPassword code now imageUrl newId =
        registerNewUser username e2 hashedPassword code now imageUrl newId := by
      unfold registerNewUser
      rw [h]
    unfold register_user
    dsimp only
    rw [h, hreg]
  · intro email newCode now db hf
    unfold resend_verification_code
    rw [hf]

/-- Witness for the amended C6: a spaced, upper-cased variant of
`userBobPending`'s email resolves identically to the stored form in
`get_user_by_email`. -/
theorem email_normalization_amended_witness :
    get_user_by_email dbBobPending " BOB@x.com " = get_user_by_email dbBobPending "bob@x.com" :=
  email_normalization_amended.1 dbBobPending " BOB@x.com " "bob@x.com" (by decide)

/-- Counterexample to C2: `userCarol` holds reset code `123456`.  A first
OTP verification succeeds, but it leaves `reset_code` (and its expiry) in
place, and a second submission of the very same code succeeds again
instead of failing with an invalid-credential error. -/
theorem reset_code_not_cleared_counterexample :
    (verify_forgot_password_otp 123456 10 dbCarol).result =
      .ok "OTP verified successfully. You can now set a new password." ∧
    (verify_forgot_password_otp 123456 10 dbCarol).db.users.find?
        (fun u => u.reset_code == some 123456) =
      some { userCarol with reset_verified := true } ∧
    (verify_forgot_password_otp 123456 20
        (verify_forgot_password_otp 123456 10 dbCarol).db).result =
      .ok "OTP verified successfully. You can now set a new password." :=
  ⟨rfl, rfl, rfl⟩

/-- C2 (amended): the verification slot is single-use — `verify_email`
clears the code and expiry on first success, so a second submission of the
same code fails (when no other user holds that pending code).  The reset
slot is not cleared by `verify_forgot_password_otp`: it only sets
`reset_verified`, leaving `reset_code`/`reset_expires_at` in place, and a
second submission of the same still-valid code succeeds again; the reset
slot is cleared only by `set_new_password`. -/
theorem one_time_code_slots_amended :
    (∀ code now now2 db user,
      db.users.find? (verificationQueryHit now code) = some user →
      user.is_verified = false →
      usersOk db.users = true →
      (∀ v ∈ db.users, verificationQueryHit now2 code v = true → v.id = user.id) →
      (verify_email code now db).db.users =
        updateUsers db.users user.id
          { user with is_verified := true, verification_code := none,
                      verification_expires_at := none } ∧
      verify_email code now2 (verify_email code now db).db =
        ⟨.error ⟨400, "Invalid or expired verification code"⟩,
         (verify_email code now db).db, 0⟩) ∧
    (∀ code now now2 db user,
      db.users.find? (fun u => u.reset_code == some code) = some user →
      user.provider = AuthProviderEnum.LOCAL → user.is_active = true →
      validate_reset_code user code now = .ok () →
      validate_reset_code user code now2 = .ok () →
      usersOk db.users = true →
      (verify_forgot_password_otp code now db).result =
        .ok "OTP verified successfully. You can now set a new password." ∧
      (verify_forgot_password_otp code now db).db.users.find?
          (fun u => u.reset_code == some code) =
        some { user with reset_verified := true } ∧
      (verify_forgot_password_otp code now2
          (verify_forgot_password_otp code now db).db).result =
        .ok "OTP verified successfully. You can now set a new password.") := by
  refine ⟨?_, ?_⟩
  · intro code now now2 db user hf hver huniq hall
    have hrun : verify_email code now db =
        ⟨.ok "Email verified successfully",
         ⟨updateUsers db.users user.id
            { user with is_verified := true, verification_code := none,
                        verification_expires_at := none }, db.tokens⟩, 1⟩ := by
      unfold verify_email
      rw [hf]
      dsimp only
      rw [if_neg (by simp [hver] : ¬ user.is_verified = true)]
    have hnone : (updateUsers db.users user.id
        { user with is_verified := true, verification_code := none,
                    verification_expires_at := none }).find?
          (verificationQueryHit now2 code) = none :=
      find?_updateUsers_none db.users user.id _ _ (by simp [verificationQueryHit]) huniq hall
    refine ⟨by rw [hrun], ?_⟩
    rw [hrun]
    unfold verify_email
    dsimp only
    rw [hnone]
  · intro code now now2 db user hf hprov hact hv1 hv2 huniq
    have hrun : verify_forgot_password_otp code now db =
        ⟨.ok "OTP verified successfully. You can now set a new password.",
         ⟨updateUsers db.users user.id { user with reset_verified := true }, db.tokens⟩, 1⟩ := by
      unfold verify_forgot_password_otp
      rw [hf]
      dsimp only
      rw [if_neg (by simp [hprov] : ¬ user.provider ≠ AuthProviderEnum.LOCAL)]
      rw [if_neg (by simp [hact] : ¬ ¬ user.is_active = true)]
      rw [hv1]
    have hp : (fun u => u.reset_code == some code) { user with reset_verified := true } = true := by
      simpa using List.find?_some hf
    have hfind1 : (updateUsers db.users user.id { user with reset_verified := true }).find?
        (fun u => u.reset_code == some code) = some { user with reset_verified := true } :=
      find?_updateUsers_self db.users user.id _ user _ hf rfl huniq hp
    refine ⟨by rw [hrun], by rw [hrun]; exact hfind1, ?_⟩
    rw [hrun]
    unfold verify_forgot_password_otp
    dsimp only
    rw [hfind1]
    dsimp only
    rw [if_neg (by simp [hprov] :
      ¬ ({ user with reset_verified := true } : UserR).provider ≠ AuthProviderEnum.LOCAL)]
    rw [if_neg (by simp [hact] :
      ¬ ¬ ({ user with reset_verified := true } : UserR).is_active = true)]
    rw [show validate_reset_code { user with reset_verified := true } code now2 = .ok () from hv2]

/-- Witness for the amended C2: the first OTP verification on `dbCarol`
succeeds. -/
theorem one_time_code_slots_amended_witness :
    (verify_forgot_password_otp 123456 10 dbCarol).result =
      .ok "OTP verified successfully. You can now set a new password." :=
  (one_time_code_slots_amended.2 123456 10 20 dbCarol userCarol rfl rfl rfl rfl rfl rfl).1

/-! ## Username probing on the Google new-account path -/

theorem probeUsername_first_free (taken : String → Bool) (base candidate : String)
    (fuel suffix : Nat) (h : taken candidate = false) :
    probeUsername taken base (fuel + 1) candidate suffix = some candidate := by
  simp [probeUsername, h]

theorem probeUsername_second_free (taken : String → Bool) (base candidate : String)
    (fuel suffix : Nat) (h1 : taken candidate = true)
    (h2 : taken (base ++ "_" ++ toString suffix) = false) :
    probeUsername taken base (fuel + 2) candidate suffix =
      some (base ++ "_" ++ toString suffix) := by
  simp [probeUsername, h1, h2]

/-- The exact successful outcome of the new-account path of
`google_sign_in`, given a verified token, a fresh email, and a probe
result. -/
theorem google_sign_in_new_user_eq (idinfo : GoogleIdInfo) (payload : GooglePayload)
    (refreshValue : String) (refreshExpiry now newId : Nat) (db : DB) (uname : String)
    (hiss : idinfo.iss = "accounts.google.com" ∨ idinfo.iss = "https://accounts.google.com")
    (hemail : ¬ normalizeEmail (idinfo.email.getD "") = "")
    (hfind : db.users.find? (fun u => u.email == normalizeEmail (idinfo.email.getD "")) = none)
    (hprobe : probeUsername (fun c => db.users.any (fun u => u.username == c))
        (googleBaseUsername payload (normalizeEmail (idinfo.email.getD "")))
        (db.users.length + 1)
        (googleFirstCandidate payload (normalizeEmail (idinfo.email.getD ""))) 1 = some uname) :
    google_sign_in (some idinfo) payload refreshValue refreshExpiry now newId db =
      ⟨.ok ⟨toString newId,
            create_access_token none (toString newId) (normalizeEmail (idinfo.email.getD "")) now,
            "bearer", refreshValue⟩,
       ⟨db.users ++ [googleNewUser idinfo payload uname (normalizeEmail (idinfo.email.getD "")) newId],
        upsertToken db.tokens newId refreshValue refreshExpiry⟩, 2⟩ := by
  unfold google_sign_in
  dsimp only
  rw [if_neg (by rcases hiss with h | h <;> simp [h])]
  rw [if_neg hemail, hfind]
  dsimp only
  rw [hprobe]

/-- C8: when Google sign-in creates a new account, the username comes from
the asserted display name (or the email's local part) via
`googleBaseUsername`/`googleFirstCandidate`, made unique by sequential
probing: the first candidate is used when free, and when it is taken while
`base_1` is free, the created account's username is `base ++ "_1"`. -/
theorem google_new_account_username_probing :
    (∀ idinfo payload refreshValue refreshExpiry now newId db,
      (idinfo : GoogleIdInfo).iss = "accounts.google.com" ∨
        idinfo.iss = "https://accounts.google.com" →
      ¬ normalizeEmail (idinfo.email.getD "") = "" →
      db.users.find? (fun u => u.email == normalizeEmail (idinfo.email.getD "")) = none →
      db.users.any (fun u => u.username ==
        googleFirstCandidate payload (normalizeEmail (idinfo.email.getD ""))) = false →
      (google_sign_in (some idinfo) payload refreshValue refreshExpiry now newId db).db.users =
        db.users ++ [googleNewUser idinfo payload
          (googleFirstCandidate payload (normalizeEmail (idinfo.email.getD "")))
          (normalizeEmail (idinfo.email.getD "")) newId]) ∧
    (∀ idinfo payload refreshValue refreshExpiry now newId db,
      (idinfo : GoogleIdInfo).iss = "accounts.google.com" ∨
        idinfo.iss = "https://accounts.google.com" →
      ¬ normalizeEmail (idinfo.email.getD "") = "" →
      db.users.find? (fun u => u.email == normalizeEmail (idinfo.email.getD "")) = none →
      db.users.any (fun u => u.username ==
        googleFirstCandidate payload (normalizeEmail (idinfo.email.getD ""))) = true →
      db.users.any (fun u => u.username ==
        googleBaseUsername payload (normalizeEmail (idinfo.email.getD "")) ++ "_" ++
          toString 1) = false →
      (google_sign_in (some idinfo) payload refreshValue refreshExpiry now newId db).db.users =
        db.users ++ [googleNewUser idinfo payload
          (googleBaseUsername payload (normalizeEmail (idinfo.email.getD "")) ++ "_" ++ toString 1)
          (normalizeEmail (idinfo.email.getD "")) newId]) := by
  refine ⟨?_, ?_⟩
  · intro idinfo payload refreshValue refreshExpiry now newId db hiss hemail hfind hfree
    rw [google_sign_in_new_user_eq idinfo payload refreshValue refreshExpiry now newId db
      (googleFirstCandidate payload (normalizeEmail (idinfo.email.getD ""))) hiss hemail hfind
      (probeUsername_first_free _ _ _ db.users.length 1 hfree)]
  · intro idinfo payload refreshValue refreshExpiry now newId db hiss hemail hfind htaken hfree1
    obtain ⟨m, hm⟩ : ∃ m, db.users.length = m + 1 := by
      cases hus : db.users with
      | nil => rw [hus] at htaken; simp at htaken
      | cons a l => exact ⟨l.length, by simp [hus]⟩
    have hprobe : probeUsername (fun c => db.users.any (fun u => u.username == c))
        (googleBaseUsername payload (normalizeEmail (idinfo.email.getD "")))
        (db.users.length + 1)
        (googleFirstCandidate payload (normalizeEmail (idinfo.email.getD ""))) 1 =
        some (googleBaseUsername payload (normalizeEmail (idinfo.email.getD "")) ++ "_" ++
          toString 1) := by
      rw [hm]
      exact probeUsername_second_free _ _ _ m 1 htaken hfree1
    rw [google_sign_in_new_user_eq idinfo payload refreshValue refreshExpiry now newId db
      _ hiss hemail hfind hprobe]

/-- Witness for C8 at the spec's scenario: the username `Bob` is taken in
`dbBobTaken`, so Google sign-in with display name `Bob` creates the
account under `Bob_1`. -/
theorem google_new_account_username_probing_witness :
    (google_sign_in (some gInfoBob) gPayloadBob "rt7" 500 0 9 dbBobTaken).db.users =
      dbBobTaken.users ++ [googleNewUser gInfoBob gPayloadBob "Bob_1" "bob@g.com" 9] :=
  google_new_account_username_probing.2 gInfoBob gPayloadBob "rt7" 500 0 9 dbBobTaken
    (Or.inl rfl) (by decide) rfl (by decide) (by decide)

/-- Counterexample to C7: a successful Google sign-in for the existing
`userDana` commits twice (the metadata update, then the refresh-token
write), not once. -/
theorem google_sign_in_two_commits_counterexample :
    (google_sign_in (some gInfoDana) gPayloadDana "rt9" 500 0 9 dbDana).result =
      .ok ⟨"4", create_access_token none "4" "dana@g.com" 0, "bearer", "rt9"⟩ ∧
    (google_sign_in (some gInfoDana) gPayloadDana "rt9" 500 0 9 dbDana).commits = 2 ∧
    ¬ (google_sign_in (some gInfoDana) gPayloadDana "rt9" 500 0 9 dbDana).commits ≤ 1 :=
  ⟨rfl, rfl, by decide⟩

/-- C7 (amended): every operation that raises a validation or precondition
error rolls back completely — the outcome is exactly the error, the initial
store and zero commits; every operation other than Google sign-in performs
at most one commit; a successful Google sign-in performs exactly two
commits (the account write, then the refresh-token write). -/
theorem atomic_rollback_and_commit_points :
    (∀ rawVerify email password ip device refreshValue now refreshExpiry db e,
      (login_user rawVerify email password ip device refreshValue now refreshExpiry db).result
        = .error e →
      login_user rawVerify email password ip device refreshValue now refreshExpiry db =
        ⟨.error e, db, 0⟩) ∧
    (∀ refresh_token now db e,
      (refresh_access_token refresh_token now db).result = .error e →
      refresh_access_token refresh_token now db = ⟨.error e, db, 0⟩) ∧
    (∀ code now db e, (verify_email code now db).result = .error e →
      verify_email code now db = ⟨.error e, db, 0⟩) ∧
    (∀ email newCode now db e,
      (resend_verification_code email newCode now db).result = .error e →
      resend_verification_code email newCode now db = ⟨.error e, db, 0⟩) ∧
    (∀ email resetCode now db e, (forgot_password email resetCode now db).result = .error e →
      forgot_password email resetCode now db = ⟨.error e, db, 0⟩) ∧
    (∀ code now db e, (verify_forgot_password_otp code now db).result = .error e →
      verify_forgot_password_otp code now db = ⟨.error e, db, 0⟩) ∧
    (∀ newHash db e, (set_new_password newHash db).result = .error e →
      set_new_password newHash db = ⟨.error e, db, 0⟩) ∧
    (∀ rawVerify userId old_password newHash db e,
      (reset_password rawVerify userId old_password newHash db).result = .error e →
      reset_password rawVerify userId old_password newHash db = ⟨.error e, db, 0⟩) ∧
    (∀ username email hashedPassword code now imageUrl newId db e,
      (register_user username email hashedPassword code now imageUrl newId db).result = .error e →
      register_user username email hashedPassword code now imageUrl newId db =
        ⟨.error e, db, 0⟩) ∧
    (∀ verified payload refreshValue refreshExpiry now newId db e,
      (google_sign_in verified payload refreshValue refreshExpiry now newId db).result = .error e →
      google_sign_in verified payload refreshValue refreshExpiry now newId db =
        ⟨.error e, db, 0⟩) ∧
    (∀ rawVerify email password ip device refreshValue now refreshExpiry db,
      (login_user rawVerify email password ip device refreshValue now refreshExpiry db).commits
        ≤ 1) ∧
    (∀ refresh_token now db, (refresh_access_token refresh_token now db).commits ≤ 1) ∧
    (∀ code now db, (verify_email code now db).commits ≤ 1) ∧
    (∀ email newCode now db, (resend_verification_code email newCode now db).commits ≤ 1) ∧
    (∀ email resetCode now db, (forgot_password email resetCode now db).commits ≤ 1) ∧
    (∀ code now db, (verify_forgot_password_otp code now db).commits ≤ 1) ∧
    (∀ newHash db, (set_new_password newHash db).commits ≤ 1) ∧
    (∀ rawVerify userId old_password newHash db,
      (reset_password rawVerify userId old_password newHash db).commits ≤ 1) ∧
    (∀ username email hashedPassword code now imageUrl newId db,
      (register_user username email hashedPassword code now imageUrl newId db).commits ≤ 1) ∧
    (∀ refresh_token db, (logout_user refresh_token db).commits ≤ 1) ∧
    (∀ verified payload refreshValue refreshExpiry now newId db resp,
      (google_sign_in verified payload refreshValue refreshExpiry now newId db).result = .ok resp →
      (google_sign_in verified payload refreshValue refreshExpiry now newId db).commits = 2) := by
  refine ⟨?_, ?_, ?_, ?_, ?_, ?_, ?_, ?_, ?_, ?_, ?_, ?_, ?_, ?_, ?_, ?_, ?_, ?_, ?_, ?_, ?_⟩
  · intro rawVerify email password ip device refreshValue now refreshExpiry db e herr
    rcases login_user_shape rawVerify email password ip device refreshValue now refreshExpiry db
      with ⟨e', heq⟩ | ⟨_, _, _, _, _, _, _, heq⟩
    · have hee : e' = e := by rw [heq] at herr; simpa using herr
      rw [heq, hee]
    · rw [heq] at herr; simp at herr
  · intro refresh_token now db e herr
    rcases refresh_access_token_shape refresh_token now db
      with ⟨e', heq⟩ | ⟨_, _, _, _, _, _, heq⟩
    · have hee : e' = e := by rw [heq] at herr; simpa using herr
      rw [heq, hee]
    · rw [heq] at herr; simp at herr
  · intro code now db e herr
    rcases verify_email_shape code now db
      with ⟨e', heq⟩ | ⟨_, _, _, heq⟩ | ⟨_, _, _, heq⟩
    · have hee : e' = e := by rw [heq] at herr; simpa using herr
      rw [heq, hee]
    · rw [heq] at herr; simp at herr
    · rw [heq] at herr; simp at herr
  · intro email newCode now db e herr
    rcases resend_verification_code_shape email newCode now db
      with ⟨e', heq⟩ | ⟨_, _, _, heq⟩
    · have hee : e' = e := by rw [heq] at herr; simpa using herr
      rw [heq, hee]
    · rw [heq] at herr; simp at herr
  · intro email resetCode now db e herr
    rcases forgot_password_shape email resetCode now db
      with ⟨e', heq⟩ | ⟨_, _, _, _, heq⟩
    · have hee : e' = e := by rw [heq] at herr; simpa using herr
      rw [heq, hee]
    · rw [heq] at herr; simp at herr
  · intro code now db e herr
    rcases verify_forgot_password_otp_shape code now db
      with ⟨e', heq⟩ | ⟨_, _, _, _, _, heq⟩
    · have hee : e' = e := by rw [heq] at herr; simpa using herr
      rw [heq, hee]
    · rw [heq] at herr; simp at herr
  · intro newHash db e herr
    rcases set_new_password_shape newHash db
      with ⟨e', heq⟩ | ⟨_, _, _, _, heq⟩
    · have hee : e' = e := by rw [heq] at herr; simpa using herr
      rw [heq, hee]
    · rw [heq] at herr; simp at herr
  · intro rawVerify userId old_password newHash db e herr
    rcases reset_password_shape rawVerify userId old_password newHash db
      with ⟨e', heq⟩ | ⟨_, _, _, _, _, heq⟩
    · have hee : e' = e := by rw [heq] at herr; simpa using herr
      rw [heq, hee]
    · rw [heq] at herr; simp at herr
  · intro username email hashedPassword code now imageUrl newId db e herr
    rcases register_user_shape username email hashedPassword code now imageUrl newId db
      with ⟨e', heq⟩ | ⟨_, _, _, heq⟩ | ⟨_, heq⟩
    · have hee : e' = e := by rw [heq] at herr; simpa using herr
      rw [heq, hee]
    · rw [heq] at herr; simp at herr
    · rw [heq] at herr; simp at herr
  · intro verified payload refreshValue refreshExpiry now newId db e herr
    rcases google_sign_in_shape verified payload refreshValue refreshExpiry now newId db
      with ⟨e', heq⟩ | ⟨_, _, _, _, _, _, heq⟩ | ⟨_, _, _, _, _, heq⟩
    · have hee : e' = e := by rw [heq] at herr; simpa using herr
      rw [heq, hee]
    · rw [heq] at herr; simp at herr
    · rw [heq] at herr; simp at herr
  · intro rawVerify email password ip device refreshValue now refreshExpiry db
    rcases login_user_shape rawVerify email password ip device refreshValue now refreshExpiry db
      with ⟨e', heq⟩ | ⟨_, _, _, _, _, _, _, heq⟩
    · rw [heq]; exact Nat.zero_le 1
    · rw [heq]
  · intro refresh_token now db
    rcases refresh_access_token_shape refresh_token now db
      with ⟨e', heq⟩ | ⟨_, _, _, _, _, _, heq⟩
    · rw [heq]; exact Nat.zero_le 1
    · rw [heq]; exact Nat.zero_le 1
  · intro code now db
    rcases verify_email_shape code now db
      with ⟨e', heq⟩ | ⟨_, _, _, heq⟩ | ⟨_, _, _, heq⟩
    · rw [heq]; exact Nat.zero_le 1
    · rw [heq]; exact Nat.zero_le 1
    · rw [heq]
  · intro email newCode now db
    rcases resend_verification_code_shape email newCode now db
      with ⟨e', heq⟩ | ⟨_, _, _, heq⟩
    · rw [heq]; exact Nat.zero_le 1
    · rw [heq]
  · intro email resetCode now db
    rcases forgot_password_shape email resetCode now db
      with ⟨e', heq⟩ | ⟨_, _, _, _, heq⟩
    · rw [heq]; exact Nat.zero_le 1
    · rw [heq]
  · intro code now db
    rcases verify_forgot_password_otp_shape code now db
      with ⟨e', heq⟩ | ⟨_, _, _, _, _, heq⟩
    · rw [heq]; exact Nat.zero_le 1
    · rw [heq]
  · intro newHash db
    rcases set_new_password_shape newHash db
      with ⟨e', heq⟩ | ⟨_, _, _, _, heq⟩
    · rw [heq]; exact Nat.zero_le 1
    · rw [heq]
  · intro rawVerify userId old_password newHash db
    rcases reset_password_shape rawVerify userId old_password newHash db
      with ⟨e', heq⟩ | ⟨_, _, _, _, _, heq⟩
    · rw [heq]; exact Nat.zero_le 1
    · rw [heq]
  · intro username email hashedPassword code now imageUrl newId db
    rcases register_user_shape username email hashedPassword code now imageUrl newId db
      with ⟨e', heq⟩ | ⟨_, _, _, heq⟩ | ⟨_, heq⟩
    · rw [heq]; exact Nat.zero_le 1
    · rw [heq]
    · rw [heq]
  · intro refresh_token db
    rcases logout_user_shape refresh_token db with ⟨_, heq⟩ | ⟨_, _, heq⟩
    · rw [heq]; exact Nat.zero_le 1
    · rw [heq]
  · intro verified payload refreshValue refreshExpiry now newId db resp hok
    rcases google_sign_in_shape verified payload refreshValue refreshExpiry now newId db
      with ⟨e', heq⟩ | ⟨_, _, _, _, _, _, heq⟩ | ⟨_, _, _, _, _, heq⟩
    · rw [heq] at hok; simp at hok
    · rw [heq]
    · rw [heq]

/-- Witness for the amended C7: a login for an unknown email on the empty
store fails with 404, leaves the store untouched and commits nothing. -/
theorem atomic_rollback_and_commit_points_witness :
    login_user rvAlways "x@y.z" "p" "i" "d" "r" 0 0 dbEmpty =
      ⟨.error ⟨404, "User not found"⟩, dbEmpty, 0⟩ :=
  atomic_rollback_and_commit_points.1 rvAlways "x@y.z" "p" "i" "d" "r" 0 0 dbEmpty
    ⟨404, "User not found"⟩ rfl

end Imagify
